import Mathlib

/-!
Verification of the FTD lead-injection scripts against their specification.

This file gives a shallow embedding, in Lean 4, of the parts of the Python
repository that the checked claims are about:

* `injector_playwright.py`  — `LeadInjector.inject_lead`, `find_form_field`,
  `_human_like_typing`, `_handle_proxy_expiration`, `_verify_proxy_and_device`,
  `get_proxy_config`, and the top-level `main()`;
* `quantumai_injector_playwright.py` — `QuantumAIInjector.inject_lead` and `main()`;
* `manual_injector_playwright.py` — `ManualLeadInjector.open_manual_injection_browser`;
* `agent_session_browser.py` — its `logging.basicConfig` handler set-up;
* `generate_leads.py` — `generate_lead`, `generate_phone`, `generate_documents`.

Python strings are modelled as `List Char` (`Str`), Python exceptions as the
`Except String` monad (an `.error msg` value is an uncaught exception carrying
its message), and every call into the non-deterministic environment (the
browser, the network, `random`) as an explicit oracle parameter.
-/

abbrev Str := List Char

/-- Convert a Lean string literal to the `List Char` model of Python strings. -/
def str (s : String) : Str := s.toList

/-- Python's `needle in hay` on strings: `needle` occurs contiguously in `hay`
(the empty needle always occurs). -/
def strContains (hay needle : Str) : Bool :=
  needle.isPrefixOf hay ||
    match hay with
    | [] => false
    | _ :: t => strContains t needle

/-- Python's `str.lower()` (restricted to the ASCII case mapping, which is all
the source uses it for). -/
def strLower (s : Str) : Str := s.map Char.toLower

/-- The `startsWithAux p s`: `p` is a prefix of `s` (recursion on `p`). -/
def startsWithAux : Str → Str → Bool
  | [], _ => true
  | _ :: _, [] => false
  | c :: ps, d :: ss => (c == d) && startsWithAux ps ss

/-- Python's `s.startswith(p)`. -/
def strStartsWith (s p : Str) : Bool := startsWithAux p s

/-! ## Navigation retry loop of `LeadInjector.inject_lead`
(`injector_playwright.py`, lines 702-704 and 895-921). -/

/-- The `MAX_RETRIES = 3` (`injector_playwright.py` line 703). -/
def MAX_RETRIES : Nat := 3

/-- The `RETRY_DELAY = 2` (`injector_playwright.py` line 704). -/
def RETRY_DELAY : Nat := 2

/-- Blocking events performed by the navigation loop: the proxy health check
(`requests.get(..., timeout=10)` inside `_check_proxy_health`), the
`page.goto(..., timeout=30000)` navigation wait, and the
`time.sleep(RETRY_DELAY)` between attempts. -/
inductive NavEvent where
  | healthCheck (timeoutSecs : Nat)
  | goto (timeoutMs : Nat)
  | sleep (secs : Nat)
  deriving DecidableEq, Repr

/-- The test `"proxy" in str(e).lower() or "timeout" in str(e).lower()`
(`injector_playwright.py` line 907). -/
def isProxyOrTimeoutMsg (msg : Str) : Bool :=
  strContains (strLower msg) (str "proxy") || strContains (strLower msg) (str "timeout")

/-- Result of the navigation loop within `inject_lead`: either control falls
through to the form-filling code, or `inject_lead` returns `False`. -/
inductive NavResult where
  | proceed
  | failedRun
  deriving DecidableEq, Repr

/-- One pass of `for attempt in range(MAX_RETRIES): ...`
(`injector_playwright.py` lines 896-918), unrolled on the number of remaining
iterations.  `proxy` is the truthiness of `self.proxy_config`; `health i` is
the result of `self._check_proxy_health()` on attempt `i`; `gotoRes i` is
`none` when `page.goto` on attempt `i` succeeds and `some msg` when it raises
an exception whose text is `msg`.  `_handle_proxy_expiration()` always returns
`False` (see `handle_proxy_expiration_result` below), so the
`if not self._handle_proxy_expiration(): return False` branch always returns.
Returns the trace of blocking events together with the control-flow result. -/
def navLoopAux (proxy : Bool) (health : Nat → Bool) (gotoRes : Nat → Option Str) :
    Nat → Nat → List NavEvent × NavResult
  | _, 0 => ([], NavResult.failedRun)
  | attempt, remaining + 1 =>
    if proxy && !(health attempt) then
      ([NavEvent.healthCheck 10], NavResult.failedRun)
    else
      let pre := if proxy then [NavEvent.healthCheck 10] else []
      match gotoRes attempt with
      | none => (pre ++ [NavEvent.goto 30000], NavResult.proceed)
      | some msg =>
        if isProxyOrTimeoutMsg msg then
          (pre ++ [NavEvent.goto 30000], NavResult.failedRun)
        else if attempt < MAX_RETRIES - 1 then
          let rest := navLoopAux proxy health gotoRes (attempt + 1) remaining
          (pre ++ [NavEvent.goto 30000, NavEvent.sleep RETRY_DELAY] ++ rest.1, rest.2)
        else
          (pre ++ [NavEvent.goto 30000], NavResult.failedRun)

/-- The whole `for attempt in range(MAX_RETRIES)` loop. -/
def navigationLoop (proxy : Bool) (health : Nat → Bool) (gotoRes : Nat → Option Str) :
    List NavEvent × NavResult :=
  navLoopAux proxy health gotoRes 0 MAX_RETRIES

/-- Number of navigation (`page.goto`) attempts in a trace. -/
def countGoto (evs : List NavEvent) : Nat :=
  (evs.filter fun e => match e with | NavEvent.goto _ => true | _ => false).length

/-- The duration, in seconds, of the blocking selector/navigation/HTTP wait an
event performs (`none` for plain sleeps, which carry no timeout). -/
def blockingWaitSecs : NavEvent → Option Nat
  | NavEvent.healthCheck t => some t
  | NavEvent.goto ms => some (ms / 1000)
  | NavEvent.sleep _ => none

theorem countGoto_append (a b : List NavEvent) :
    countGoto (a ++ b) = countGoto a + countGoto b := by
  simp [countGoto, List.filter_append]

theorem navLoopAux_countGoto (p : Bool) (h : Nat → Bool) (g : Nat → Option Str) :
    ∀ r a, countGoto (navLoopAux p h g a r).1 ≤ r := by
  intro r
  induction r with
  | zero => intro a; simp [navLoopAux, countGoto]
  | succ r ih =>
    intro a
    simp only [navLoopAux]
    split
    · simp [countGoto]
    · cases hg : g a with
      | none => cases p <;> simp [countGoto]
      | some msg =>
        simp only
        split
        · cases p <;> simp [countGoto]
        · split
          · have hrec := ih (a + 1)
            cases p <;> simp [countGoto_append, countGoto] at * <;> omega
          · cases p <;> simp [countGoto]

theorem mem_healthPre {p : Bool} {e : NavEvent}
    (he : e ∈ (if p then [NavEvent.healthCheck 10] else [])) :
    e = NavEvent.healthCheck 10 := by
  split at he <;> simp_all

theorem navLoopAux_events_mem (p : Bool) (h : Nat → Bool) (g : Nat → Option Str) :
    ∀ r a, ∀ e ∈ (navLoopAux p h g a r).1,
      e = NavEvent.healthCheck 10 ∨ e = NavEvent.goto 30000 ∨
        e = NavEvent.sleep RETRY_DELAY := by
  intro r
  induction r with
  | zero => intro a e he; simp [navLoopAux] at he
  | succ r ih =>
    intro a e he
    simp only [navLoopAux] at he
    split at he
    · simp at he
      exact Or.inl he
    · rcases hG : g a with _ | msg
      · rw [hG] at he
        simp only [List.mem_append] at he
        rcases he with he | he
        · exact Or.inl (mem_healthPre he)
        · simp at he
          exact Or.inr (Or.inl he)
      · rw [hG] at he
        simp only at he
        split at he
        · simp only [List.mem_append] at he
          rcases he with he | he
          · exact Or.inl (mem_healthPre he)
          · simp at he
            exact Or.inr (Or.inl he)
        · split at he
          · simp only [List.mem_append] at he
            rcases he with (he | he) | he
            · exact Or.inl (mem_healthPre he)
            · simp at he
              rcases he with he | he
              · exact Or.inr (Or.inl he)
              · exact Or.inr (Or.inr he)
            · exact ih (a + 1) e he
          · simp only [List.mem_append] at he
            rcases he with he | he
            · exact Or.inl (mem_healthPre he)
            · simp at he
              exact Or.inr (Or.inl he)

theorem navLoopAux_allFail (p : Bool) (h : Nat → Bool) (g : Nat → Option Str) :
    ∀ r a, (∀ i, a ≤ i → i < a + r → g i ≠ none) →
      (navLoopAux p h g a r).2 = NavResult.failedRun := by
  intro r
  induction r with
  | zero => intro a _; simp [navLoopAux]
  | succ r ih =>
    intro a hfail
    simp only [navLoopAux]
    split
    · rfl
    · cases hg : g a with
      | none =>
        exact absurd hg (hfail a (Nat.le_refl a) (by omega))
      | some msg =>
        simp only
        split
        · cases p <;> rfl
        · split
          · have hrec := ih (a + 1) (fun i h1 h2 => hfail i (by omega) (by omega))
            cases p <;> simpa using hrec
          · cases p <;> rfl

/-- Claim C2:  In `inject_lead`, navigation to the target URL is retried in a
fixed-count loop of at most `MAX_RETRIES = 3` attempts with a fixed
`RETRY_DELAY = 2`-second sleep between consecutive failed attempts; if all 3
attempts fail the loop ends the run with `return False`; and every blocking
wait performed inside the loop (the 10-second proxy health check and the
30-second `page.goto` timeout) uses a fixed timeout between 5 and 30
seconds. -/
theorem claim_C2_navigation_retry_loop :
    MAX_RETRIES = 3 ∧ RETRY_DELAY = 2 ∧
    ∀ (proxy : Bool) (health : Nat → Bool) (gotoRes : Nat → Option Str),
      countGoto (navigationLoop proxy health gotoRes).1 ≤ MAX_RETRIES ∧
      (∀ e ∈ (navigationLoop proxy health gotoRes).1,
        ∀ s, e = NavEvent.sleep s → s = RETRY_DELAY) ∧
      (∀ e ∈ (navigationLoop proxy health gotoRes).1,
        ∀ t, blockingWaitSecs e = some t → 5 ≤ t ∧ t ≤ 30) ∧
      ((∀ i, i < MAX_RETRIES → gotoRes i ≠ none) →
        (navigationLoop proxy health gotoRes).2 = NavResult.failedRun) := by
  refine ⟨rfl, rfl, fun proxy health gotoRes => ⟨?_, ?_, ?_, ?_⟩⟩
  · exact navLoopAux_countGoto proxy health gotoRes MAX_RETRIES 0
  · intro e he s hs
    rcases navLoopAux_events_mem proxy health gotoRes MAX_RETRIES 0 e he with
      h1 | h1 | h1 <;> subst hs <;> simp_all
  · intro e he t ht
    rcases navLoopAux_events_mem proxy health gotoRes MAX_RETRIES 0 e he with
      h1 | h1 | h1 <;> subst h1 <;> simp [blockingWaitSecs] at ht <;> omega
  · intro hfail
    exact navLoopAux_allFail proxy health gotoRes MAX_RETRIES 0
      (fun i h1 h2 => hfail i (by omega))

/-- Witness for C2: with a proxy configured, a healthy proxy, and every
navigation attempt failing with a generic connection error, the loop ends the
run with `return False`. -/
theorem claim_C2_navigation_retry_loop_witness :
    (navigationLoop true (fun _ => true)
      (fun _ => some (str "net::ERR_CONNECTION_REFUSED"))).2 = NavResult.failedRun := by
  have h := claim_C2_navigation_retry_loop.2.2 true (fun _ => true)
    (fun _ => some (str "net::ERR_CONNECTION_REFUSED"))
  exact h.2.2.2 (fun i _ => by simp)

/-! ## `LeadInjector._human_like_typing` (`injector_playwright.py` lines 754-757). -/

/-- The `LeadInjector._human_like_typing`:
`for char in text: element.type(char, delay=random.uniform(100, 300))`.
`uniform k` models the value returned by the `k`-th `random.uniform(100, 300)`
call of this invocation (a rational, standing in for the Python float).  The
result is the ordered list of `(character, delay)` pairs delivered to the form
field element, one `element.type` call per pair. -/
def human_like_typing (uniform : Nat → ℚ) : Str → Nat → List (Char × ℚ)
  | [], _ => []
  | c :: rest, k => (c, uniform k) :: human_like_typing uniform rest (k + 1)

theorem human_like_typing_fst (uniform : Nat → ℚ) :
    ∀ (text : Str) (k : Nat), (human_like_typing uniform text k).map Prod.fst = text := by
  intro text
  induction text with
  | nil => intro k; rfl
  | cons c rest ih => intro k; simp [human_like_typing, ih]

theorem human_like_typing_snd (uniform : Nat → ℚ) :
    ∀ (text : Str) (k : Nat),
      (human_like_typing uniform text k).map Prod.snd =
        (List.range text.length).map (fun i => uniform (k + i)) := by
  intro text
  induction text with
  | nil => intro k; rfl
  | cons c rest ih =>
    intro k
    simp [human_like_typing, ih, List.range_succ_eq_map, Function.comp,
      Nat.add_comm, Nat.add_assoc, Nat.add_left_comm]

/-! ## `QuantumAIInjector._human_like_typing`
(`quantumai_injector_playwright.py` lines 74-84).

That variant first calls `element.clear()`, then types each character of
`str(text)` with `element.type(char)` followed by
`time.sleep(random.uniform(0.05, 0.15))`; if anything in that `try` block
raises, its `except` prints a warning and falls back to
`element.fill(str(text))`. -/

/-- An operation applied to the form field element by
`QuantumAIInjector._human_like_typing`: the initial `element.clear()`, one
`element.type(char)` keystroke together with the `random.uniform(0.05, 0.15)`
sleep that follows it, or the fallback `element.fill(s)` call (recorded with
its argument; its own failure would propagate to the caller). -/
inductive FieldEvent where
  | clear
  | typed (c : Char) (sleepAfter : ℚ)
  | fill (s : Str)
  deriving DecidableEq, Repr

/-- The keystroke events that the quantumai typing loop produces when no
`element.type` call raises: one `typed` event per character, in order, with
the `k`-th `random.uniform(0.05, 0.15)` draw as the sleep after it. -/
def qTypedEvents (uniform : Nat → ℚ) : Str → Nat → List FieldEvent
  | [], _ => []
  | c :: rest, k => FieldEvent.typed c (uniform k) :: qTypedEvents uniform rest (k + 1)

/-- The `for char in str(text)` loop of `QuantumAIInjector._human_like_typing`
(lines 78-80): `typeRes k` is `none` when the `element.type` call for the
`k`-th character succeeds and `some msg` when it raises (delivering nothing);
returns the keystroke events delivered before any exception, together with the
exception that aborted the loop, if any. -/
def quantumai_typing_loop (uniform : Nat → ℚ) (typeRes : Nat → Option String) :
    Str → Nat → List FieldEvent × Option String
  | [], _ => ([], none)
  | c :: rest, k =>
    match typeRes k with
    | some msg => ([], some msg)
    | none =>
      let restRun := quantumai_typing_loop uniform typeRes rest (k + 1)
      (FieldEvent.typed c (uniform k) :: restRun.1, restRun.2)

/-- `QuantumAIInjector._human_like_typing` (lines 74-84), as the sequence of
operations applied to the form field: `clearRes` is the result of
`element.clear()` (`some msg` = it raised, delivering nothing); when the
clear or any `element.type` raises, the `except` clause runs
`element.fill(str(text))`. -/
def quantumai_human_like_typing (uniform : Nat → ℚ) (clearRes : Option String)
    (typeRes : Nat → Option String) (text : Str) : List FieldEvent :=
  match clearRes with
  | some _ => [FieldEvent.fill text]
  | none =>
    let run := quantumai_typing_loop uniform typeRes text 0
    match run.2 with
    | none => FieldEvent.clear :: run.1
    | some _ => FieldEvent.clear :: run.1 ++ [FieldEvent.fill text]

/-- The characters delivered by per-character `element.type` keystrokes, in
order. -/
def typedChars : List FieldEvent → Str
  | [] => []
  | FieldEvent.typed c _ :: rest => c :: typedChars rest
  | FieldEvent.clear :: rest => typedChars rest
  | FieldEvent.fill _ :: rest => typedChars rest

/-- The sleeps following the per-character keystrokes, in order. -/
def typedDelays : List FieldEvent → List ℚ
  | [] => []
  | FieldEvent.typed _ d :: rest => d :: typedDelays rest
  | FieldEvent.clear :: rest => typedDelays rest
  | FieldEvent.fill _ :: rest => typedDelays rest

/-- The content of the form field after a sequence of operations, starting
from content `init`: `clear` empties it, a keystroke appends its character,
`fill` replaces it. -/
def finalFieldContent (init : Str) : List FieldEvent → Str
  | [] => init
  | FieldEvent.clear :: rest => finalFieldContent [] rest
  | FieldEvent.typed c _ :: rest => finalFieldContent (init ++ [c]) rest
  | FieldEvent.fill s :: rest => finalFieldContent s rest

theorem qTypedEvents_chars (uniform : Nat → ℚ) :
    ∀ (text : Str) (k : Nat), typedChars (qTypedEvents uniform text k) = text := by
  intro text
  induction text with
  | nil => intro k; rfl
  | cons c rest ih => intro k; simp [qTypedEvents, typedChars, ih]

theorem qTypedEvents_delays (uniform : Nat → ℚ) :
    ∀ (text : Str) (k : Nat),
      typedDelays (qTypedEvents uniform text k) =
        (List.range text.length).map (fun i => uniform (k + i)) := by
  intro text
  induction text with
  | nil => intro k; rfl
  | cons c rest ih =>
    intro k
    simp [qTypedEvents, typedDelays, ih, List.range_succ_eq_map, Function.comp,
      Nat.add_comm, Nat.add_assoc, Nat.add_left_comm]

theorem quantumai_typing_loop_ok (uniform : Nat → ℚ)
    (typeRes : Nat → Option String) (h : ∀ j, typeRes j = none) :
    ∀ (text : Str) (k : Nat),
      quantumai_typing_loop uniform typeRes text k =
        (qTypedEvents uniform text k, none) := by
  intro text
  induction text with
  | nil => intro k; rfl
  | cons c rest ih =>
    intro k
    simp [quantumai_typing_loop, h k, qTypedEvents, ih]

theorem quantumai_typing_loop_none (uniform : Nat → ℚ)
    (typeRes : Nat → Option String) :
    ∀ (text : Str) (k : Nat),
      (quantumai_typing_loop uniform typeRes text k).2 = none →
      (quantumai_typing_loop uniform typeRes text k).1 =
        qTypedEvents uniform text k := by
  intro text
  induction text with
  | nil => intro k _; rfl
  | cons c rest ih =>
    intro k hnone
    cases htr : typeRes k with
    | some msg => simp [quantumai_typing_loop, htr] at hnone
    | none =>
      simp only [quantumai_typing_loop, htr, qTypedEvents] at hnone ⊢
      simp only [List.cons.injEq, true_and]
      exact ih (k + 1) (by simpa using hnone)

theorem finalFieldContent_append_fill (s : Str) :
    ∀ (evs : List FieldEvent) (init : Str),
      finalFieldContent init (evs ++ [FieldEvent.fill s]) = s := by
  intro evs
  induction evs with
  | nil => intro init; rfl
  | cons e rest ih =>
    intro init
    cases e <;> simp [finalFieldContent, ih]

theorem finalFieldContent_qTypedEvents (uniform : Nat → ℚ) :
    ∀ (text : Str) (k : Nat) (init : Str),
      finalFieldContent init (qTypedEvents uniform text k) = init ++ text := by
  intro text
  induction text with
  | nil => intro k init; simp [qTypedEvents, finalFieldContent]
  | cons c rest ih =>
    intro k init
    simp [qTypedEvents, finalFieldContent, ih]

/-- Claim C4 counterexample:  The claim covers both `_human_like_typing`
variants, but in the quantumai one an exception during typing (here: the very
first `element.type` raising while the clear succeeded) triggers the
`element.fill` fallback: the field operations are just a clear followed by one
`fill` of the whole string, so no character is delivered by per-character
typing — the characters typed do not equal the input string. -/
theorem claim_C4_counterexample :
    quantumai_human_like_typing (fun _ => (1 : ℚ) / 10) none
        (fun _ => some "ElementHandle.type: Element is not attached to the DOM")
        (str "John") =
      [FieldEvent.clear, FieldEvent.fill (str "John")] ∧
    ¬ (typedChars (quantumai_human_like_typing (fun _ => (1 : ℚ) / 10) none
        (fun _ => some "ElementHandle.type: Element is not attached to the DOM")
        (str "John")) = str "John") := by
  exact ⟨rfl, by decide⟩

/-- Claim C4 amended:  For every non-empty input string,
`LeadInjector._human_like_typing` types each character of the string exactly
once, in the string's order, the delay attached to the `i`-th character being
the `i`-th `random.uniform(100, 300)` draw; and
`QuantumAIInjector._human_like_typing` does the same (after clearing the
field, with the `i`-th `random.uniform(0.05, 0.15)` sleep after the `i`-th
character) whenever no exception occurs during the clear or the typing — but
on an exception it falls back to a single `element.fill(str(text))`, so that
on every path the field still ends up containing exactly the input string,
though not necessarily via per-character typing. -/
theorem claim_C4_human_like_typing (uniform qUniform : Nat → ℚ) (text : Str)
    (clearRes : Option String) (typeRes : Nat → Option String)
    (_hne : text ≠ []) :
    (human_like_typing uniform text 0).map Prod.fst = text ∧
    (human_like_typing uniform text 0).map Prod.snd =
      (List.range text.length).map uniform ∧
    (clearRes = none → (∀ j, typeRes j = none) →
      quantumai_human_like_typing qUniform clearRes typeRes text =
        FieldEvent.clear :: qTypedEvents qUniform text 0 ∧
      typedChars (quantumai_human_like_typing qUniform clearRes typeRes text) =
        text ∧
      typedDelays (quantumai_human_like_typing qUniform clearRes typeRes text) =
        (List.range text.length).map qUniform) ∧
    (∀ init : Str,
      finalFieldContent init
        (quantumai_human_like_typing qUniform clearRes typeRes text) = text) := by
  refine ⟨human_like_typing_fst uniform text 0,
    by simpa using human_like_typing_snd uniform text 0, ?_, ?_⟩
  · intro hclear htype
    subst hclear
    have hrun := quantumai_typing_loop_ok qUniform typeRes htype text 0
    have htrace : quantumai_human_like_typing qUniform none typeRes text =
        FieldEvent.clear :: qTypedEvents qUniform text 0 := by
      simp [quantumai_human_like_typing, hrun]
    refine ⟨htrace, ?_, ?_⟩
    · rw [htrace]
      simpa [typedChars] using qTypedEvents_chars qUniform text 0
    · rw [htrace]
      simpa [typedDelays] using qTypedEvents_delays qUniform text 0
  · intro init
    cases clearRes with
    | some msg => simp [quantumai_human_like_typing, finalFieldContent]
    | none =>
      simp only [quantumai_human_like_typing]
      cases hrun : (quantumai_typing_loop qUniform typeRes text 0).2 with
      | none =>
        simp only [hrun]
        rw [quantumai_typing_loop_none qUniform typeRes text 0 hrun]
        simpa [finalFieldContent] using
          finalFieldContent_qTypedEvents qUniform text 0 []
      | some msg =>
        simp only [hrun, finalFieldContent]
        exact finalFieldContent_append_fill text _ []

/-- Witness for C4 (amended) at the concrete input `"John"`, all
`LeadInjector` draws equal to 150, all quantumai sleeps equal to 1/10, and no
exception from the clear or the typing. -/
theorem claim_C4_human_like_typing_witness :
    (human_like_typing (fun _ => (150 : ℚ)) (str "John") 0).map Prod.fst =
      str "John" ∧
    typedChars (quantumai_human_like_typing (fun _ => (1 : ℚ) / 10) none
      (fun _ => none) (str "John")) = str "John" ∧
    finalFieldContent [] (quantumai_human_like_typing (fun _ => (1 : ℚ) / 10)
      none (fun _ => none) (str "John")) = str "John" := by
  have h := claim_C4_human_like_typing (fun _ => (150 : ℚ))
    (fun _ => (1 : ℚ) / 10) (str "John") none (fun _ => none) (by simp [str])
  exact ⟨h.1, (h.2.2.1 rfl (fun j => rfl)).2.1, h.2.2.2 []⟩

/-! ## `get_proxy_config` (`injector_playwright.py` lines 1477-1521). -/

/-- The module-level `COUNTRY_TO_ISO_CODE` dictionary of
`injector_playwright.py` (lines 172-441), as an association list in source
order.  The Python dict has no duplicate keys, so `List.lookup` agrees with
dict lookup. -/
def COUNTRY_TO_ISO_CODE : List (String × String) := [
  ("United States", "us"),
  ("United Kingdom", "gb"),
  ("Canada", "ca"),
  ("Australia", "au"),
  ("Germany", "de"),
  ("France", "fr"),
  ("Italy", "it"),
  ("Spain", "es"),
  ("Netherlands", "nl"),
  ("Belgium", "be"),
  ("Switzerland", "ch"),
  ("Austria", "at"),
  ("Sweden", "se"),
  ("Norway", "no"),
  ("Denmark", "dk"),
  ("Finland", "fi"),
  ("Poland", "pl"),
  ("Czech Republic", "cz"),
  ("Hungary", "hu"),
  ("Romania", "ro"),
  ("Bulgaria", "bg"),
  ("Greece", "gr"),
  ("Portugal", "pt"),
  ("Ireland", "ie"),
  ("Luxembourg", "lu"),
  ("Malta", "mt"),
  ("Cyprus", "cy"),
  ("Estonia", "ee"),
  ("Latvia", "lv"),
  ("Lithuania", "lt"),
  ("Slovakia", "sk"),
  ("Slovenia", "si"),
  ("Croatia", "hr"),
  ("Serbia", "rs"),
  ("Montenegro", "me"),
  ("Bosnia and Herzegovina", "ba"),
  ("North Macedonia", "mk"),
  ("Albania", "al"),
  ("Moldova", "md"),
  ("Ukraine", "ua"),
  ("Belarus", "by"),
  ("Russia", "ru"),
  ("China", "cn"),
  ("Japan", "jp"),
  ("South Korea", "kr"),
  ("Korea", "kr"),
  ("India", "in"),
  ("Indonesia", "id"),
  ("Thailand", "th"),
  ("Vietnam", "vn"),
  ("Malaysia", "my"),
  ("Singapore", "sg"),
  ("Philippines", "ph"),
  ("Taiwan", "tw"),
  ("Hong Kong", "hk"),
  ("Macau", "mo"),
  ("Mongolia", "mn"),
  ("Kazakhstan", "kz"),
  ("Uzbekistan", "uz"),
  ("Turkmenistan", "tm"),
  ("Kyrgyzstan", "kg"),
  ("Tajikistan", "tj"),
  ("Afghanistan", "af"),
  ("Pakistan", "pk"),
  ("Bangladesh", "bd"),
  ("Sri Lanka", "lk"),
  ("Myanmar", "mm"),
  ("Cambodia", "kh"),
  ("Laos", "la"),
  ("Brunei", "bn"),
  ("Nepal", "np"),
  ("Bhutan", "bt"),
  ("Maldives", "mv"),
  ("New Zealand", "nz"),
  ("Papua New Guinea", "pg"),
  ("Fiji", "fj"),
  ("Solomon Islands", "sb"),
  ("Vanuatu", "vu"),
  ("Samoa", "ws"),
  ("Tonga", "to"),
  ("Tuvalu", "tv"),
  ("Kiribati", "ki"),
  ("Nauru", "nr"),
  ("Palau", "pw"),
  ("Marshall Islands", "mh"),
  ("Micronesia", "fm"),
  ("Guam", "gu"),
  ("American Samoa", "as"),
  ("Northern Mariana Islands", "mp"),
  ("Turkey", "tr"),
  ("Israel", "il"),
  ("Palestine", "ps"),
  ("Palestinian Territory", "ps"),
  ("Lebanon", "lb"),
  ("Syria", "sy"),
  ("Jordan", "jo"),
  ("Iraq", "iq"),
  ("Iran", "ir"),
  ("Saudi Arabia", "sa"),
  ("Kuwait", "kw"),
  ("Bahrain", "bh"),
  ("Qatar", "qa"),
  ("United Arab Emirates", "ae"),
  ("UAE", "ae"),
  ("Oman", "om"),
  ("Yemen", "ye"),
  ("Georgia", "ge"),
  ("Armenia", "am"),
  ("Azerbaijan", "az"),
  ("Egypt", "eg"),
  ("Libya", "ly"),
  ("Tunisia", "tn"),
  ("Algeria", "dz"),
  ("Morocco", "ma"),
  ("Sudan", "sd"),
  ("South Sudan", "ss"),
  ("Ethiopia", "et"),
  ("Eritrea", "er"),
  ("Djibouti", "dj"),
  ("Somalia", "so"),
  ("Kenya", "ke"),
  ("Uganda", "ug"),
  ("Tanzania", "tz"),
  ("Rwanda", "rw"),
  ("Burundi", "bi"),
  ("Democratic Republic of the Congo", "cd"),
  ("Congo", "cg"),
  ("Central African Republic", "cf"),
  ("Chad", "td"),
  ("Cameroon", "cm"),
  ("Nigeria", "ng"),
  ("Niger", "ne"),
  ("Mali", "ml"),
  ("Burkina Faso", "bf"),
  ("Ivory Coast", "ci"),
  ("Cote d\x27Ivoire", "ci"),
  ("Ghana", "gh"),
  ("Togo", "tg"),
  ("Benin", "bj"),
  ("Senegal", "sn"),
  ("Gambia", "gm"),
  ("Guinea-Bissau", "gw"),
  ("Guinea", "gn"),
  ("Sierra Leone", "sl"),
  ("Liberia", "lr"),
  ("Cape Verde", "cv"),
  ("Mauritania", "mr"),
  ("Western Sahara", "eh"),
  ("South Africa", "za"),
  ("Namibia", "na"),
  ("Botswana", "bw"),
  ("Zimbabwe", "zw"),
  ("Zambia", "zm"),
  ("Malawi", "mw"),
  ("Mozambique", "mz"),
  ("Madagascar", "mg"),
  ("Mauritius", "mu"),
  ("Seychelles", "sc"),
  ("Comoros", "km"),
  ("Mayotte", "yt"),
  ("Reunion", "re"),
  ("Saint Helena", "sh"),
  ("Angola", "ao"),
  ("Gabon", "ga"),
  ("Equatorial Guinea", "gq"),
  ("Sao Tome and Principe", "st"),
  ("Lesotho", "ls"),
  ("Swaziland", "sz"),
  ("Eswatini", "sz"),
  ("Mexico", "mx"),
  ("Guatemala", "gt"),
  ("Belize", "bz"),
  ("El Salvador", "sv"),
  ("Honduras", "hn"),
  ("Nicaragua", "ni"),
  ("Costa Rica", "cr"),
  ("Panama", "pa"),
  ("Cuba", "cu"),
  ("Jamaica", "jm"),
  ("Haiti", "ht"),
  ("Dominican Republic", "do"),
  ("Bahamas", "bs"),
  ("Barbados", "bb"),
  ("Trinidad and Tobago", "tt"),
  ("Grenada", "gd"),
  ("Saint Vincent and the Grenadines", "vc"),
  ("Saint Lucia", "lc"),
  ("Dominica", "dm"),
  ("Antigua and Barbuda", "ag"),
  ("Saint Kitts and Nevis", "kn"),
  ("Puerto Rico", "pr"),
  ("United States Virgin Islands", "vi"),
  ("British Virgin Islands", "vg"),
  ("Anguilla", "ai"),
  ("Montserrat", "ms"),
  ("Guadeloupe", "gp"),
  ("Martinique", "mq"),
  ("Saint Barthelemy", "bl"),
  ("Saint Martin", "mf"),
  ("Sint Maarten", "sx"),
  ("Curacao", "cw"),
  ("Aruba", "aw"),
  ("Bonaire", "bq"),
  ("Netherlands Antilles", "an"),
  ("Turks and Caicos Islands", "tc"),
  ("Cayman Islands", "ky"),
  ("Bermuda", "bm"),
  ("Greenland", "gl"),
  ("Faroe Islands", "fo"),
  ("Iceland", "is"),
  ("Brazil", "br"),
  ("Argentina", "ar"),
  ("Chile", "cl"),
  ("Peru", "pe"),
  ("Bolivia", "bo"),
  ("Paraguay", "py"),
  ("Uruguay", "uy"),
  ("Colombia", "co"),
  ("Venezuela", "ve"),
  ("Guyana", "gy"),
  ("Suriname", "sr"),
  ("French Guiana", "gf"),
  ("Ecuador", "ec"),
  ("Falkland Islands", "fk"),
  ("Falkland Islands (Malvinas)", "fk"),
  ("South Georgia and the South Sandwich Islands", "gs"),
  ("Cook Islands", "ck"),
  ("Niue", "nu"),
  ("Tokelau", "tk"),
  ("French Polynesia", "pf"),
  ("Wallis and Futuna", "wf"),
  ("New Caledonia", "nc"),
  ("Norfolk Island", "nf"),
  ("Christmas Island", "cx"),
  ("Cocos (Keeling) Islands", "cc"),
  ("Heard Island and McDonald Islands", "hm"),
  ("Australian Antarctic Territory", "aq"),
  ("Antarctica", "aq"),
  ("Antarctica (the territory South of 60 deg S)", "aq"),
  ("British Indian Ocean Territory", "io"),
  ("British Indian Ocean Territory (Chagos Archipelago)", "io"),
  ("Gibraltar", "gi"),
  ("Isle of Man", "im"),
  ("Jersey", "je"),
  ("Guernsey", "gg"),
  ("Svalbard and Jan Mayen", "sj"),
  ("Bouvet Island", "bv"),
  ("Pitcairn Islands", "pn"),
  ("Saint Pierre and Miquelon", "pm"),
  ("Vatican City", "va"),
  ("San Marino", "sm"),
  ("Monaco", "mc"),
  ("Andorra", "ad"),
  ("Liechtenstein", "li"),
  ("Aland Islands", "ax")]

/-- The `string.ascii_letters + string.digits`: the population that
`random.choices` draws the session id from (`injector_playwright.py` line
1489). -/
def asciiLettersAndDigits : Str :=
  str "abcdefghijklmnopqrstuvwxyzABCDEFGHIJKLMNOPQRSTUVWXYZ0123456789"

/-- The `random.choices(population, k=k)`: `k` independent draws (with
replacement) from `population`; `pick i` is the index drawn by the `i`-th
call. -/
def randomChoices (population : Str) (pick : Nat → Fin population.length)
    (k : Nat) : Str :=
  (List.range k).map fun i => population.get (pick i)

/-- The session id minted by `get_proxy_config`:
`''.join(random.choices(string.ascii_letters + string.digits, k=8))`
(`injector_playwright.py` line 1489). -/
def proxySessionId (pick : Nat → Fin asciiLettersAndDigits.length) : Str :=
  randomChoices asciiLettersAndDigits pick 8

/-- The 2-letter ISO code that `get_proxy_config` uses:
`COUNTRY_TO_ISO_CODE.get(country_name)`, defaulting to `"us"` when the lookup
returns `None` (`injector_playwright.py` lines 1481-1484). -/
def proxyIsoCode (country_name : String) : Str :=
  match COUNTRY_TO_ISO_CODE.lookup country_name with
  | some iso => str iso
  | none => str "us"

/-- The proxy username built by `get_proxy_config`:
`f"34998931-zone-custom-country-{iso_code}-sessid-{session_id}"`
(`injector_playwright.py` line 1490). -/
def proxyUsername (country_name : String)
    (pick : Nat → Fin asciiLettersAndDigits.length) : Str :=
  str "34998931-zone-custom-country-" ++ proxyIsoCode country_name ++
    str "-sessid-" ++ proxySessionId pick

/-- Claim C6:  Every call to `get_proxy_config` mints a session identifier of
exactly 8 characters, each drawn independently (one `pick` per position) from
the ASCII letters and digits, and embeds it into a username of the fixed form
`"34998931-zone-custom-country-<iso>-sessid-<session_id>"`, where `<iso>` is
the ISO code looked up from the country name in `COUNTRY_TO_ISO_CODE`,
defaulting to `"us"` when the country is absent from the mapping. -/
theorem claim_C6_proxy_session_username (country_name : String)
    (pick : Nat → Fin asciiLettersAndDigits.length) :
    (proxySessionId pick).length = 8 ∧
    (∀ c ∈ proxySessionId pick, c ∈ asciiLettersAndDigits) ∧
    proxyUsername country_name pick =
      str "34998931-zone-custom-country-" ++ proxyIsoCode country_name ++
        str "-sessid-" ++ proxySessionId pick ∧
    (∀ iso, COUNTRY_TO_ISO_CODE.lookup country_name = some iso →
      proxyIsoCode country_name = str iso) ∧
    (COUNTRY_TO_ISO_CODE.lookup country_name = none →
      proxyIsoCode country_name = str "us") := by
  refine ⟨?_, ?_, rfl, ?_, ?_⟩
  · simp [proxySessionId, randomChoices]
  · intro c hc
    simp only [proxySessionId, randomChoices, List.mem_map] at hc
    obtain ⟨i, _, rfl⟩ := hc
    exact List.get_mem _ _ _
  · intro iso hiso
    simp [proxyIsoCode, hiso]
  · intro hnone
    simp [proxyIsoCode, hnone]

/-- Witness for C6 at the concrete country `"Germany"` (ISO code `"de"`) and
the constant draw of index 0 (the letter `a`). -/
theorem claim_C6_proxy_session_username_witness :
    (proxySessionId (fun _ => ⟨0, by decide⟩)).length = 8 ∧
    proxyIsoCode "Germany" = str "de" :=
  ⟨(claim_C6_proxy_session_username "Germany" (fun _ => ⟨0, by decide⟩)).1,
   (claim_C6_proxy_session_username "Germany" (fun _ => ⟨0, by decide⟩)).2.2.2.1
     "de" (by decide)⟩

/-! ## `find_form_field` (`injector_playwright.py` lines 1045-1103). -/

/-- An `<input>` element as `find_form_field` observes it: the five attributes
read in the fallback scan (`get_attribute(...) or ''`, so a missing attribute
is the empty string) and the result of `is_visible()`. -/
structure InputElem where
  idAttr : Str
  nameAttr : Str
  placeholderAttr : Str
  ariaLabelAttr : Str
  typeAttr : Str
  visible : Bool
  deriving DecidableEq, Repr

/-- The hardcoded selector list of `find_form_field`
(`injector_playwright.py` lines 1046-1057), in source order. -/
def formFieldSelectors (field_name field_label : Str) : List Str :=
  [ str "#" ++ field_name,
    str "[data-testid=\"" ++ field_name ++ str "\"]",
    str "input[name=\"" ++ field_name ++ str "\"]",
    str "input[placeholder*=\"" ++ strLower field_label ++ str "\" i]",
    str "input[aria-label*=\"" ++ field_label ++ str "\" i]",
    str "input[id*=\"" ++ field_name ++ str "\" i]",
    str ".MuiTextField-root input[name=\"" ++ field_name ++ str "\"]",
    str ".MuiTextField-root input#" ++ field_name,
    str ".MuiOutlinedInput-input[name=\"" ++ field_name ++ str "\"]" ]

/-- The `for selector in selectors` loop of `find_form_field`
(`injector_playwright.py` lines 1059-1066): `wait s` is what
`page.wait_for_selector(s, timeout=3000)` yields (`none` when it raises or
returns nothing); the loop returns the element found by the first selector
whose element `is_visible()`, and otherwise continues. -/
def tryFormSelectors (wait : Str → Option InputElem) : List Str → Option InputElem
  | [] => none
  | s :: rest =>
    match wait s with
    | some e => if e.visible then some e else tryFormSelectors wait rest
    | none => tryFormSelectors wait rest

/-- The values of the `attrs` dict built in the fallback scan
(`injector_playwright.py` lines 1077-1083), in insertion order:
`id`, `name`, `placeholder`, `aria-label`, `type`. -/
def attrValues (e : InputElem) : List Str :=
  [e.idAttr, e.nameAttr, e.placeholderAttr, e.ariaLabelAttr, e.typeAttr]

/-- The per-attribute test of the fallback scan
(`injector_playwright.py` lines 1087-1088):
`attr_value and (field_name.lower() in attr_value.lower() or
field_label.lower() in attr_value.lower())`. -/
def attrMatchesField (field_name field_label attr_value : Str) : Bool :=
  !attr_value.isEmpty &&
    (strContains (strLower attr_value) (strLower field_name) ||
     strContains (strLower attr_value) (strLower field_label))

/-- The `for i, input_elem in enumerate(all_inputs)` fallback scan
(`injector_playwright.py` lines 1074-1099): a visible input is returned when
one of its attribute values matches, or — for `field_name == "firstName"`
only — when it is input 0 and its `type` is `'text'` or `''`. -/
def fallbackScan (field_name field_label : Str) :
    List InputElem → Nat → Option InputElem
  | [], _ => none
  | e :: rest, i =>
    if e.visible then
      if (attrValues e).any (attrMatchesField field_name field_label) then some e
      else if field_name == str "firstName" &&
          (e.typeAttr == str "text" || e.typeAttr == str "") && i == 0 then
        some e
      else fallbackScan field_name field_label rest (i + 1)
    else fallbackScan field_name field_label rest (i + 1)

/-- The whole condition under which the fallback scan returns element `e`
found at index `i` (visibility plus attribute match or the firstName
first-text-input special case). -/
def fallbackMatches (field_name field_label : Str) (e : InputElem) (i : Nat) : Bool :=
  e.visible &&
    ((attrValues e).any (attrMatchesField field_name field_label) ||
     (field_name == str "firstName" &&
       (e.typeAttr == str "text" || e.typeAttr == str "") && i == 0))

/-- The `find_form_field(field_name, field_label)`: try the hardcoded selectors
in order; only if none of them yields a visible element, run the fallback
attribute scan over all input elements; return `None` when both fail
(`injector_playwright.py` lines 1045-1103). -/
def find_form_field (wait : Str → Option InputElem) (all_inputs : List InputElem)
    (field_name field_label : Str) : Option InputElem :=
  match tryFormSelectors wait (formFieldSelectors field_name field_label) with
  | some e => some e
  | none => fallbackScan field_name field_label all_inputs 0

/-- The `wait_for_selector` on `s` yields a visible element. -/
def visibleAt (wait : Str → Option InputElem) (s : Str) : Prop :=
  ∃ e, wait s = some e ∧ e.visible = true

theorem tryFormSelectors_eq_of_first (wait : Str → Option InputElem) :
    ∀ (pre : List Str) (s : Str) (post : List Str),
      (∀ s' ∈ pre, ¬ visibleAt wait s') → visibleAt wait s →
      tryFormSelectors wait (pre ++ s :: post) = wait s := by
  intro pre
  induction pre with
  | nil =>
    intro s post _ hv
    obtain ⟨e, hw, he⟩ := hv
    simp [tryFormSelectors, hw, he]
  | cons s' pre ih =>
    intro s post hpre hv
    have hns' : ¬ visibleAt wait s' := hpre s' (List.mem_cons_self s' pre)
    simp only [List.cons_append, tryFormSelectors]
    cases hw : wait s' with
    | none => exact ih s post (fun x hx => hpre x (List.mem_cons_of_mem _ hx)) hv
    | some e =>
      have he : e.visible = false := by
        cases hvis : e.visible
        · rfl
        · exact absurd ⟨e, hw, hvis⟩ hns'
      simp only [he]
      simp
      exact ih s post (fun x hx => hpre x (List.mem_cons_of_mem _ hx)) hv

theorem tryFormSelectors_eq_none (wait : Str → Option InputElem) :
    ∀ (sels : List Str), (∀ s ∈ sels, ¬ visibleAt wait s) →
      tryFormSelectors wait sels = none := by
  intro sels
  induction sels with
  | nil => intro _; rfl
  | cons s rest ih =>
    intro hall
    have hns : ¬ visibleAt wait s := hall s (List.mem_cons_self s rest)
    simp only [tryFormSelectors]
    cases hw : wait s with
    | none => exact ih (fun x hx => hall x (List.mem_cons_of_mem _ hx))
    | some e =>
      have he : e.visible = false := by
        cases hvis : e.visible
        · rfl
        · exact absurd ⟨e, hw, hvis⟩ hns
      simp only [he]
      simp
      exact ih (fun x hx => hall x (List.mem_cons_of_mem _ hx))

theorem fallbackScan_eq_none (field_name field_label : Str) :
    ∀ (inputs : List InputElem) (i : Nat),
      (∀ j e, inputs.get? j = some e →
        fallbackMatches field_name field_label e (i + j) = false) →
      fallbackScan field_name field_label inputs i = none := by
  intro inputs
  induction inputs with
  | nil => intro i _; rfl
  | cons e rest ih =>
    intro i hnone
    have h0 : fallbackMatches field_name field_label e i = false := by
      simpa using hnone 0 e rfl
    simp only [fallbackMatches, Bool.and_eq_false_iff, Bool.or_eq_false_iff] at h0
    have hrec : fallbackScan field_name field_label rest (i + 1) = none := by
      apply ih
      intro j e' hj
      have := hnone (j + 1) e' (by simpa using hj)
      simpa [Nat.add_assoc, Nat.add_comm 1 j] using this
    simp only [fallbackScan]
    rcases h0 with hv | ⟨ha, hb⟩
    · simp [hv, hrec]
    · cases hvis : e.visible
      · simp [hrec]
      · rcases hb with (hb1 | ⟨hb2, hb3⟩) | hb4
        · simp [ha, hb1, hrec]
        · simp [ha, hb2, hb3, hrec]
        · simp [ha, hb4, hrec]

/-- Claim C5:  `find_form_field` tries its hardcoded list of CSS selectors in
the listed order and returns the element matched by the first selector that
yields a visible element; only when every selector in the list fails does it
fall back to scanning all input elements by attribute matching (including the
firstName first-text-input special case); and it returns `None` when no
selector and no fallback element matches. -/
theorem claim_C5_find_form_field (wait : Str → Option InputElem)
    (all_inputs : List InputElem) (field_name field_label : Str) :
    (∀ (pre : List Str) (s : Str) (post : List Str),
      formFieldSelectors field_name field_label = pre ++ s :: post →
      (∀ s' ∈ pre, ¬ visibleAt wait s') → visibleAt wait s →
      find_form_field wait all_inputs field_name field_label = wait s) ∧
    ((∀ s ∈ formFieldSelectors field_name field_label, ¬ visibleAt wait s) →
      find_form_field wait all_inputs field_name field_label =
        fallbackScan field_name field_label all_inputs 0) ∧
    ((∀ s ∈ formFieldSelectors field_name field_label, ¬ visibleAt wait s) →
     (∀ j e, all_inputs.get? j = some e →
        fallbackMatches field_name field_label e j = false) →
      find_form_field wait all_inputs field_name field_label = none) := by
  refine ⟨?_, ?_, ?_⟩
  · intro pre s post hsplit hpre hv
    obtain ⟨e, hw, he⟩ := hv
    unfold find_form_field
    rw [hsplit, tryFormSelectors_eq_of_first wait pre s post hpre ⟨e, hw, he⟩, hw]
  · intro hall
    unfold find_form_field
    rw [tryFormSelectors_eq_none wait _ hall]
  · intro hall hnomatch
    unfold find_form_field
    rw [tryFormSelectors_eq_none wait _ hall]
    exact fallbackScan_eq_none field_name field_label all_inputs 0
      (fun j e hj => by simpa using hnomatch j e hj)

/-- Witness for C5: with a page whose `#email` selector immediately yields a
visible element, `find_form_field` returns that element. -/
theorem claim_C5_find_form_field_witness :
    find_form_field
      (fun s => if s == str "#email"
        then some ⟨str "email", str "email", [], [], str "email", true⟩ else none)
      [] (str "email") (str "Email") =
      some ⟨str "email", str "email", [], [], str "email", true⟩ := by
  have h := (claim_C5_find_form_field
    (fun s => if s == str "#email"
      then some ⟨str "email", str "email", [], [], str "email", true⟩ else none)
    [] (str "email") (str "Email")).1 []
    (str "#email")
    ((formFieldSelectors (str "email") (str "Email")).tail)
    (by decide) (by intro s' hs'; simp at hs')
    ⟨⟨str "email", str "email", [], [], str "email", true⟩, by decide, rfl⟩
  rw [h]
  decide

/-! ## Sentinel stdout lines of `inject_lead` and `_handle_proxy_expiration`
(`injector_playwright.py` lines 1283-1327 and 1467-1475). -/

/-- A character allowed after the first one in a URL scheme
(`urllib.parse`: letters, digits, `+`, `-`, `.`). -/
def isSchemeChar (c : Char) : Bool :=
  c.isAlpha || c.isDigit || c == '+' || c == '-' || c == '.'

/-- A valid URL scheme: non-empty, starts with a letter, rest scheme chars. -/
def validScheme : Str → Bool
  | [] => false
  | c :: rest => c.isAlpha && rest.all isSchemeChar

/-- Strip a leading `scheme:` from a URL when one is present
(`urllib.parse.urlparse` scheme handling). -/
def dropScheme (url : Str) : Str :=
  let pre := url.takeWhile (fun c => !(c == ':'))
  if pre.length < url.length then
    if validScheme pre then url.drop (pre.length + 1) else url
  else url

/-- The `netloc` component of `urllib.parse.urlparse`: present only when the
input (after the optional scheme) starts with `//`, and then extends to the
first `/`, `?` or `#`.  `inject_lead` computes
`urlparse(final_url).netloc` (`injector_playwright.py` lines 1305-1306). -/
def urlNetloc (url : Str) : Str :=
  match dropScheme url with
  | '/' :: '/' :: rest =>
    rest.takeWhile (fun c => !(c == '/') && !(c == '?') && !(c == '#'))
  | _ => []

/-- The four lines printed by `LeadInjector._handle_proxy_expiration`
(`injector_playwright.py` lines 1467-1474), in order. -/
def handle_proxy_expiration_output : List Str :=
  [ str "INFO: Proxy appears to have expired during session.",
    str "INFO: Session terminated due to proxy expiration.",
    str "INFO: Please restart the injection process to get a new proxy.",
    str "PROXY_EXPIRED: Session ended due to proxy expiration" ]

/-- The `_handle_proxy_expiration` ends with `return False`
(`injector_playwright.py` line 1475). -/
def handle_proxy_expiration_result : Bool := false

/-- One `self._take_screenshot(page, name)` call (`injector_playwright.py`
lines 717-725): `filename` is the formatted path, `ok` tells whether
`page.screenshot` succeeded, `errMsg` the exception text otherwise. -/
structure ScreenshotCall where
  filename : Str
  ok : Bool
  errMsg : Str

/-- The line printed by `_take_screenshot`. -/
def take_screenshot_output (c : ScreenshotCall) : List Str :=
  if c.ok then [str "INFO: Screenshot saved to " ++ c.filename]
  else [str "WARNING: Failed to take screenshot: " ++ c.errMsg]

/-- Environment of one `_verify_proxy_and_device` call
(`injector_playwright.py` lines 759-844): the strings interpolated into its
prints, the branch conditions, and — when some step raises — the point
`truncAt = some (n, err)` at which the output is cut short and the
`except` clause prints its warning instead. -/
structure VerifyEnv where
  actual_ip : Str
  locationOk : Bool
  country : Str
  city : Str
  pageContent : Str
  userAgent : Str
  platformStr : Str
  language : Str
  vendor : Str
  screenRes : Str
  availRes : Str
  colorDepth : Str
  isMobile : Bool
  hwShown : Bool
  hwCores : Str
  memShown : Bool
  deviceMem : Str
  screenshot : ScreenshotCall
  proxyConfigured : Bool
  ipTruthy : Bool
  deviceSimOk : Bool
  truncAt : Option (Nat × Str)

/-- The stdout lines of a `_verify_proxy_and_device` call that completes its
`try` block without raising, in source order. -/
def verifyHappyLines (v : VerifyEnv) : List Str :=
  [str "\nINFO: Verifying proxy and device simulation..."] ++
  (if v.locationOk then
     [str "\nProxy and Device Verification Results:",
      str "IP Address: " ++ v.actual_ip,
      str "Country: " ++ v.country,
      str "City: " ++ v.city]
   else
     [str "IP Address: " ++ v.actual_ip,
      str "WARNING: Could not get detailed location data",
      str "DEBUG: page content from ip.oxylabs.io/location: " ++ v.pageContent]) ++
  [str "\nDevice Information:",
   str "User Agent: " ++ v.userAgent,
   str "Platform: " ++ v.platformStr,
   str "Language: " ++ v.language,
   str "Vendor: " ++ v.vendor,
   str "Screen Resolution: " ++ v.screenRes,
   str "Available Screen: " ++ v.availRes,
   str "Color Depth: " ++ v.colorDepth,
   str "Mobile Device: " ++ (if v.isMobile then str "Yes" else str "No")] ++
  (if v.hwShown then [str "CPU Cores: " ++ v.hwCores] else []) ++
  (if v.memShown then [str "Device Memory (GB): " ++ v.deviceMem] else []) ++
  take_screenshot_output v.screenshot ++
  (if v.proxyConfigured then
     [if v.ipTruthy then str "INFO: Successfully verified proxy connection"
      else str "WARNING: Could not verify proxy IP address"]
   else []) ++
  [if v.deviceSimOk then str "INFO: Successfully verified iPhone 14 Pro Max simulation"
   else str "WARNING: Device simulation may not be working as expected"]

/-- The stdout of a `_verify_proxy_and_device` call: the happy-path lines, or
— when a step raises — the lines printed so far followed by
`WARNING: Proxy verification failed - <err>`. -/
def verify_proxy_and_device_output (v : VerifyEnv) : List Str :=
  match v.truncAt with
  | none => verifyHappyLines v
  | some (n, err) =>
    (verifyHappyLines v).take n ++ [str "WARNING: Proxy verification failed - " ++ err]

/-- The `_verify_proxy_and_device` returns `True` exactly when its `try` block
completes (`injector_playwright.py` lines 839-844). -/
def verify_proxy_and_device_result (v : VerifyEnv) : Bool := v.truncAt.isNone

/-- Environment of the success branch of `inject_lead` after the
`Thank You!` marker is found (`injector_playwright.py` lines 1286-1327):
the six `_take_screenshot` calls, the four URLs observed during the 20-second
redirect wait, the final URL, and the embedded `_verify_proxy_and_device`
call. -/
structure SuccessEnv where
  ss1 : ScreenshotCall
  ss2 : ScreenshotCall
  ss3 : ScreenshotCall
  ss4 : ScreenshotCall
  ss5 : ScreenshotCall
  ss6 : ScreenshotCall
  u1 : Str
  u2 : Str
  u3 : Str
  u4 : Str
  finalUrl : Str
  verify : VerifyEnv

/-- The stdout lines of the completed success branch of `inject_lead`
(`injector_playwright.py` lines 1286-1327), in source order, ending just
before `return True`. -/
def injectLeadSuccessOutput (s : SuccessEnv) : List Str :=
  [str "SUCCESS: Form submitted successfully"] ++
  take_screenshot_output s.ss1 ++
  [str "INFO: Waiting 20 seconds for final redirect..."] ++
  [str "INFO: URL after 5 seconds: " ++ s.u1] ++ take_screenshot_output s.ss2 ++
  [str "INFO: URL after 10 seconds: " ++ s.u2] ++ take_screenshot_output s.ss3 ++
  [str "INFO: URL after 15 seconds: " ++ s.u3] ++ take_screenshot_output s.ss4 ++
  [str "INFO: URL after 20 seconds: " ++ s.u4] ++ take_screenshot_output s.ss5 ++
  [str "INFO: Final URL after 20 seconds: " ++ s.finalUrl] ++
  (if (urlNetloc s.finalUrl).isEmpty ||
      urlNetloc s.finalUrl == str "ftd-copy.vercel.app" then
     [str "WARNING: Final domain appears to be the original form domain: " ++
        urlNetloc s.finalUrl,
      str "INFO: This might indicate no redirect occurred or redirect failed"]
   else []) ++
  [str "SUCCESS: Final domain captured: " ++ urlNetloc s.finalUrl] ++
  take_screenshot_output s.ss6 ++
  [str "FINAL_DOMAIN:" ++ urlNetloc s.finalUrl] ++
  verify_proxy_and_device_output s.verify ++
  [if verify_proxy_and_device_result s.verify
   then str "INFO: Proxy and device verification completed"
   else str "WARNING: Proxy and device verification failed"]

/-- A stdout line is a `FINAL_DOMAIN:` sentinel. -/
def isFinalDomainLine (l : Str) : Bool := strStartsWith l (str "FINAL_DOMAIN:")

/-- A stdout line is a `PROXY_EXPIRED:` sentinel. -/
def isProxyExpiredLine (l : Str) : Bool := strStartsWith l (str "PROXY_EXPIRED:")

theorem filter_fd_screenshot (c : ScreenshotCall) :
    (take_screenshot_output c).filter isFinalDomainLine = [] := by
  rcases c with ⟨f, ok, e⟩
  cases ok <;> rfl

theorem filter_fd_verifyHappy (v : VerifyEnv) :
    (verifyHappyLines v).filter isFinalDomainLine = [] := by
  rcases v with ⟨ip, lok, co, ci, pc, ua, pf, la, ve, sr, ar, cd, mo, hwS, hw,
    meS, me, sc, px, ipT, dev, tr⟩
  unfold verifyHappyLines
  simp only [List.filter_append, filter_fd_screenshot]
  cases lok <;> cases hwS <;> cases meS <;> cases px <;> cases ipT <;>
    cases dev <;> rfl

theorem filter_fd_verifyOutput (v : VerifyEnv) :
    (verify_proxy_and_device_output v).filter isFinalDomainLine = [] := by
  unfold verify_proxy_and_device_output
  cases htr : v.truncAt with
  | none => exact filter_fd_verifyHappy v
  | some p =>
    rcases p with ⟨n, err⟩
    rw [List.filter_append]
    have hall := List.filter_eq_nil_iff.mp (filter_fd_verifyHappy v)
    have htake : ((verifyHappyLines v).take n).filter isFinalDomainLine = [] :=
      List.filter_eq_nil_iff.mpr (fun a ha => hall a (List.take_subset n _ ha))
    rw [htake]
    rfl

/-- Claim C3:  On the successful submission path, `inject_lead` prints exactly
one sentinel line of the form `FINAL_DOMAIN:<netloc>`, where `<netloc>` is
the network-location component of the page's final URL after the post-submit
wait; and `_handle_proxy_expiration` always prints a sentinel line beginning
`PROXY_EXPIRED:` and returns `False`. -/
theorem claim_C3_sentinel_lines (s : SuccessEnv) :
    (injectLeadSuccessOutput s).filter isFinalDomainLine =
      [str "FINAL_DOMAIN:" ++ urlNetloc s.finalUrl] ∧
    (∃ l ∈ handle_proxy_expiration_output, isProxyExpiredLine l = true) ∧
    handle_proxy_expiration_result = false := by
  refine ⟨?_, ⟨str "PROXY_EXPIRED: Session ended due to proxy expiration",
    by simp [handle_proxy_expiration_output], rfl⟩, rfl⟩
  rcases s with ⟨a1, a2, a3, a4, a5, a6, u1, u2, u3, u4, finalUrl, v⟩
  unfold injectLeadSuccessOutput
  simp only [List.filter_append, filter_fd_screenshot, filter_fd_verifyOutput]
  have hW : (if (urlNetloc finalUrl).isEmpty ||
      urlNetloc finalUrl == str "ftd-copy.vercel.app" then
      [str "WARNING: Final domain appears to be the original form domain: " ++
         urlNetloc finalUrl,
       str "INFO: This might indicate no redirect occurred or redirect failed"]
     else ([] : List Str)).filter isFinalDomainLine = [] := by
    split <;> rfl
  have hLast : ([if verify_proxy_and_device_result v
      then str "INFO: Proxy and device verification completed"
      else str "WARNING: Proxy and device verification failed"]).filter
        isFinalDomainLine = [] := by
    split <;> rfl
  rw [hW, hLast]
  rfl

/-! ## Logging configuration of the repository's scripts. -/

/-- The thirteen Python source files of the repository. -/
inductive Script where
  | agent_session_browser
  | generate_leads
  | injector
  | injector_playwright
  | manual_injector_playwright
  | quantumai_injector_playwright
  | test_agent_session_browser
  | test_form_debug
  | test_injection
  | test_manual_injection
  | test_order_injection
  | test_quantumai_injection
  | backend_injector
  deriving DecidableEq, Repr

/-- A handler installed via `logging.basicConfig(handlers=[...])`. -/
inductive LogHandler where
  | streamHandler
  | fileHandler (filename : String)
  | rotatingFileHandler (filename : String)
  deriving DecidableEq, Repr

/-- The logging handlers each script installs.  Only
`agent_session_browser.py` calls `logging.basicConfig` (lines 17-26), with a
plain `logging.FileHandler('agent_session_browser.log')` and a
`logging.StreamHandler`; no other script configures a logging handler (they
print to stdout/stderr directly), and no script anywhere uses
`logging.handlers.RotatingFileHandler`. -/
def logHandlers : Script → List LogHandler
  | Script.agent_session_browser =>
    [LogHandler.fileHandler "agent_session_browser.log", LogHandler.streamHandler]
  | _ => []

/-- The script writes its log output to a rotating log file. -/
def writesRotatingLogFile (s : Script) : Bool :=
  (logHandlers s).any fun h =>
    match h with
    | LogHandler.rotatingFileHandler _ => true
    | _ => false

/-- The script writes its log output to a log file (rotating or not). -/
def writesLogFile (s : Script) : Bool :=
  (logHandlers s).any fun h =>
    match h with
    | LogHandler.fileHandler _ => true
    | LogHandler.rotatingFileHandler _ => true
    | LogHandler.streamHandler => false

/-- Claim C7 counterexample:  The claim says the agent session browser writes
its log output to a rotating log file; in fact its handler is a plain
`logging.FileHandler`, which does not rotate, so no script writes to a
rotating log file. -/
theorem claim_C7_counterexample :
    writesRotatingLogFile Script.agent_session_browser = false ∧
    logHandlers Script.agent_session_browser =
      [LogHandler.fileHandler "agent_session_browser.log",
       LogHandler.streamHandler] := by
  exact ⟨rfl, rfl⟩

/-- Claim C7 amended:  Exactly one script — the agent session browser —
writes its log output to a log file; the handler is a plain, non-rotating
`logging.FileHandler('agent_session_browser.log')` (alongside a
`StreamHandler`), and no script writes to a rotating log file. -/
theorem claim_C7_log_file_unique :
    (∀ s : Script, writesLogFile s = true ↔ s = Script.agent_session_browser) ∧
    logHandlers Script.agent_session_browser =
      [LogHandler.fileHandler "agent_session_browser.log",
       LogHandler.streamHandler] ∧
    (∀ s : Script, writesRotatingLogFile s = false) := by
  refine ⟨?_, rfl, ?_⟩
  · intro s
    cases s <;> simp [writesLogFile, logHandlers]
  · intro s
    cases s <;> rfl

/-! ## Top-level `main()` exit codes
(`injector_playwright.py` lines 1523-1578,
`quantumai_injector_playwright.py` lines 601-640). -/

/-- How the body of `main()` after a successful `json.loads` ends: the
injection reports success, reports failure, or some step raises an exception
(of class `Exception`) with the given message. -/
inductive RunOutcome where
  | success
  | failure
  | raised (msg : String)

/-- The state of `sys.argv[1]`: absent, present but not valid JSON, or valid
JSON. -/
inductive MainArg where
  | missing
  | invalidJson
  | valid
  deriving DecidableEq, Repr

/-- The `main()` of `injector_playwright.py` (lines 1523-1575): `sys.exit(1)` when
the argument is missing (line 1527) or `json.loads` raises
`json.JSONDecodeError` (line 1567); otherwise the function RETURNS `True` on
success (line 1560), `False` on failure (line 1563), and `False` from the
generic `except Exception` handler (line 1575) — without calling `sys.exit`.
`.error k` models a `sys.exit(k)`; `.ok b` models a plain `return b`. -/
def main_injector_playwright : MainArg → RunOutcome → Except Nat Bool
  | MainArg.missing, _ => Except.error 1
  | MainArg.invalidJson, _ => Except.error 1
  | MainArg.valid, RunOutcome.success => Except.ok true
  | MainArg.valid, RunOutcome.failure => Except.ok false
  | MainArg.valid, RunOutcome.raised _ => Except.ok false

/-- The process exit code of `python injector_playwright.py ...`: the
`if __name__ == "__main__": main()` guard (line 1577) ignores `main`'s return
value, so the interpreter exits 0 unless `sys.exit` was called. -/
def exitCode_injector_playwright (arg : MainArg) (run : RunOutcome) : Nat :=
  match main_injector_playwright arg run with
  | Except.error k => k
  | Except.ok _ => 0

/-- The process exit code of `python quantumai_injector_playwright.py ...`
(`main()`, lines 601-637): `sys.exit(1)` when `len(sys.argv) != 2`, on invalid
JSON, on any exception, and on a failed run; `sys.exit(0)` on success. -/
def exitCode_quantumai_injector (arg : MainArg) (run : RunOutcome) : Nat :=
  match arg with
  | MainArg.missing => 1
  | MainArg.invalidJson => 1
  | MainArg.valid =>
    match run with
    | RunOutcome.success => 0
    | RunOutcome.failure => 1
    | RunOutcome.raised _ => 1

/-- Claim C1 counterexample:  The claim requires exit code 1 whenever the run
fails with an exception; but when `main()` of `injector_playwright.py` is
invoked with a valid JSON argument (e.g. `'[1]'`, a JSON list, on which
`injection_data.get(...)` raises `AttributeError`) and the run raises, the
generic handler returns `False` without `sys.exit`, so the process exits 0,
not 1.  Likewise a plainly failed run exits 0. -/
theorem claim_C1_counterexample :
    exitCode_injector_playwright MainArg.valid
        (RunOutcome.raised "AttributeError") = 0 ∧
    ¬ (exitCode_injector_playwright MainArg.valid
        (RunOutcome.raised "AttributeError") = 1) ∧
    exitCode_injector_playwright MainArg.valid RunOutcome.failure = 0 := by
  exact ⟨rfl, by decide, rfl⟩

/-- Claim C1 amended:  Top-level `main()` functions catch JSON-decode errors
and generic exceptions, and only exit codes 0 and 1 ever occur; a missing or
invalid-JSON argument always exits 1.  In
`quantumai_injector_playwright.py` the exit code is furthermore 1 on a run
exception or failure and 0 exactly on success; but in
`injector_playwright.py` `main()` merely returns `False` on a run exception
or failure, so the process exits 0 there — exit code 1 is produced only for
a missing or invalid-JSON argument. -/
theorem claim_C1_exit_codes (arg : MainArg) (run : RunOutcome) :
    (exitCode_injector_playwright arg run = 0 ∨
      exitCode_injector_playwright arg run = 1) ∧
    (exitCode_quantumai_injector arg run = 0 ∨
      exitCode_quantumai_injector arg run = 1) ∧
    (arg ≠ MainArg.valid →
      exitCode_injector_playwright arg run = 1 ∧
      exitCode_quantumai_injector arg run = 1) ∧
    (arg = MainArg.valid → exitCode_injector_playwright arg run = 0) ∧
    (arg = MainArg.valid →
      (exitCode_quantumai_injector arg run = 0 ↔ run = RunOutcome.success)) := by
  cases arg <;> cases run <;>
    simp [exitCode_injector_playwright, exitCode_quantumai_injector,
      main_injector_playwright]

/-- Witness for C1 (amended), at a valid argument and a successful run: both
scripts exit 0. -/
theorem claim_C1_exit_codes_witness :
    exitCode_injector_playwright MainArg.valid RunOutcome.success = 0 ∧
    exitCode_quantumai_injector MainArg.valid RunOutcome.success = 0 := by
  have h := claim_C1_exit_codes MainArg.valid RunOutcome.success
  exact ⟨h.2.2.2.1 rfl, (h.2.2.2.2 rfl).mpr rfl⟩

/-! ## Exception flow of `LeadInjector.inject_lead`
(`injector_playwright.py` lines 846-1363).

Each step that the source executes *outside* any inner `try` is an oracle of
type `Except String _` (`.error msg` = that step raised an exception with
text `msg`); blocks the source wraps in their own `try/except` that cannot
re-raise (screenshots, debug dumps, `_verify_proxy_and_device`,
`_check_proxy_health`, the input-scan loop) are total and appear only where
their results steer control flow. -/

/-- The environment (browser, page, playwright) of one
`LeadInjector.inject_lead` call. -/
structure InjectEnv where
  /-- The `with sync_playwright() as p` (line 863). -/
  startPlaywright : Except String Unit
  /-- The `p.chromium.launch(...)` (line 866). -/
  launch : Except String Unit
  /-- The `browser.new_context(...)` (line 872). -/
  new_context : Except String Unit
  /-- The `context.new_page()` (line 878). -/
  new_page : Except String Unit
  /-- The `page.evaluate(...)` adding the viewport meta tag (line 881). -/
  viewportEval : Except String Unit
  /-- Truthiness of `self.proxy_config`. -/
  proxyConfigured : Bool
  /-- The `self._check_proxy_health()` on navigation attempt `i` (total: it has
  its own `try/except`). -/
  health : Nat → Bool
  /-- The `page.goto` result on attempt `i` (`none` = success). -/
  gotoRes : Nat → Option Str
  /-- The `page.title()` / `page.url` debug prints (lines 927-928), not wrapped
  by any inner `try`. -/
  titleStep : Except String Unit
  /-- The `page.wait_for_load_state('networkidle', timeout=30000)` (line 1006),
  first statement inside the form-interaction `try`. -/
  waitLoadState : Except String Unit
  /-- The `page.wait_for_selector` results during `find_form_field("firstName", ...)`. -/
  waitFirstName : Str → Option InputElem
  /-- Same for `find_form_field("lastName", ...)`. -/
  waitLastName : Str → Option InputElem
  /-- Same for `find_form_field("email", ...)`. -/
  waitEmail : Str → Option InputElem
  /-- Same for `find_form_field("phone", ...)`. -/
  waitPhone : Str → Option InputElem
  /-- The `page.query_selector_all('input')` for the fallback scans. -/
  allInputs : List InputElem
  /-- The `self._human_like_typing(first_name, ...)` (line 1134). -/
  typeFirstName : Except String Unit
  /-- The `self._human_like_typing(last_name, ...)` (line 1142). -/
  typeLastName : Except String Unit
  /-- The `self._human_like_typing(email, ...)` (line 1150). -/
  typeEmail : Except String Unit
  /-- The `self._human_like_typing(phone, ...)` (line 1244). -/
  typePhone : Except String Unit
  /-- The country-code dropdown section (lines 1152-1234): its clicks are not
  all wrapped, so it may raise into the form-interaction handler. -/
  prefixDropdownPhase : Except String Unit
  /-- The `page.evaluate("window.localStorage.setItem(...)")` (line 1250). -/
  injectionFlagEval : Except String Unit
  /-- The submit-button search loop (lines 1257-1273; every wait is inside
  its own `try`): `some ()` when a button was found. -/
  submitSearch : Option Unit
  /-- The `submit_button.click()` (line 1280). -/
  submitClick : Except String Unit
  /-- The `page.wait_for_selector('text="Thank You!"', timeout=30000)` (line
  1285): `.ok true` = found, `.ok false` = returned falsy, `.error` =
  raised (caught at line 1339). -/
  thankYouWait : Except String Bool
  /-- The success-branch page interactions (lines 1288-1326): URL reads,
  screenshots and waits; an exception here is caught at line 1339. -/
  successSteps : Except String Unit
  /-- The `browser.close()` in the `finally` block (line 1361); wrapped in a bare
  `except: pass`, so its errors are swallowed and never alter the result. -/
  closeResult : Except String Unit

/-- A Python dict of string keys and string values (the `lead_data`
argument); a missing key models an input dictionary lacking that field. -/
def lookupKey (d : List (String × Str)) (k : String) : Option Str := d.lookup k

/-- The form-interaction `try` body (`injector_playwright.py` lines
999-1342): `.ok b` is `return b`; `.error msg` is an exception escaping to
the `except Exception` handler at line 1344 (among them the `KeyError` that
`lead_data["firstName"]` / `lead_data["lastName"]` / `lead_data["email"]` /
`lead_data["phone"]` raises when the key is missing). -/
def formInteraction (env : InjectEnv) (lead_data : List (String × Str)) :
    Except String Bool :=
  match env.waitLoadState with
  | Except.error e => Except.error e
  | Except.ok _ =>
  match find_form_field env.waitFirstName env.allInputs
      (str "firstName") (str "First Name") with
  | none => Except.ok false
  | some _ =>
  match lookupKey lead_data "firstName" with
  | none => Except.error "KeyError: firstName"
  | some _ =>
  match env.typeFirstName with
  | Except.error e => Except.error e
  | Except.ok _ =>
  match find_form_field env.waitLastName env.allInputs
      (str "lastName") (str "Last Name") with
  | none => Except.ok false
  | some _ =>
  match lookupKey lead_data "lastName" with
  | none => Except.error "KeyError: lastName"
  | some _ =>
  match env.typeLastName with
  | Except.error e => Except.error e
  | Except.ok _ =>
  match find_form_field env.waitEmail env.allInputs
      (str "email") (str "Email") with
  | none => Except.ok false
  | some _ =>
  match lookupKey lead_data "email" with
  | none => Except.error "KeyError: email"
  | some _ =>
  match env.typeEmail with
  | Except.error e => Except.error e
  | Except.ok _ =>
  match env.prefixDropdownPhase with
  | Except.error e => Except.error e
  | Except.ok _ =>
  match lookupKey lead_data "phone" with
  | none => Except.error "KeyError: phone"
  | some _ =>
  match find_form_field env.waitPhone env.allInputs
      (str "phone") (str "Phone") with
  | none => Except.ok false
  | some _ =>
  match env.typePhone with
  | Except.error e => Except.error e
  | Except.ok _ =>
  match env.injectionFlagEval with
  | Except.error e => Except.error e
  | Except.ok _ =>
  match env.submitSearch with
  | none => Except.ok false
  | some _ =>
  match env.submitClick with
  | Except.error e => Except.error e
  | Except.ok _ =>
  match env.thankYouWait with
  | Except.error _ => Except.ok false
  | Except.ok false => Except.ok false
  | Except.ok true =>
  match env.successSteps with
  | Except.error _ => Except.ok false
  | Except.ok _ => Except.ok true

/-- The part of `inject_lead`'s `try` body that runs once the browser is
launched (lines 868-1348): `.ok b` = `return b`, `.error` = an exception
escaping to the outer handler at line 1350. -/
def inject_lead_afterLaunch (env : InjectEnv) (lead_data : List (String × Str)) :
    Except String Bool :=
  match env.new_context with
  | Except.error e => Except.error e
  | Except.ok _ =>
  match env.new_page with
  | Except.error e => Except.error e
  | Except.ok _ =>
  match env.viewportEval with
  | Except.error e => Except.error e
  | Except.ok _ =>
  match (navigationLoop env.proxyConfigured env.health env.gotoRes).2 with
  | NavResult.failedRun => Except.ok false
  | NavResult.proceed =>
  match env.titleStep with
  | Except.error e => Except.error e
  | Except.ok _ =>
  match formInteraction env lead_data with
  | Except.error _ => Except.ok false
  | Except.ok b => Except.ok b

/-- The whole `try` body of `inject_lead` (lines 849-1348), together with
whether `browser` was assigned (`p.chromium.launch` returned). -/
def inject_lead_body (env : InjectEnv) (lead_data : List (String × Str)) :
    Except String Bool × Bool :=
  match env.startPlaywright with
  | Except.error e => (Except.error e, false)
  | Except.ok _ =>
  match env.launch with
  | Except.error e => (Except.error e, false)
  | Except.ok _ => (inject_lead_afterLaunch env lead_data, true)

/-- Outcome of one complete `inject_lead` call. -/
structure InjectRun where
  /-- What propagates to the caller: `.ok b` = returned `b`, `.error` = an
  uncaught exception. -/
  result : Except String Bool
  /-- A browser instance was launched. -/
  launched : Bool
  /-- The `browser.close()` was attempted in the cleanup block. -/
  closeAttempted : Bool

/-- The `LeadInjector.inject_lead` (lines 846-1363): the `try` body runs; the
outer `except Exception` (lines 1350-1357) turns any escaping exception into
`return False` (printing and, for proxy errors, calling
`_handle_proxy_expiration` on the way); the `finally` block (lines 1358-1363)
then attempts `browser.close()` exactly when `browser` was assigned, inside a
bare `except: pass`, so `closeResult` never alters the returned value. -/
def inject_lead_run (env : InjectEnv) (lead_data : List (String × Str)) :
    InjectRun :=
  let body := inject_lead_body env lead_data
  { result :=
      match body.1 with
      | Except.error _ => Except.ok false
      | Except.ok b => Except.ok b
    launched := body.2
    closeAttempted := body.2 }

/-! ## Exception flow of `QuantumAIInjector.inject_lead`
(`quantumai_injector_playwright.py` lines 490-599). -/

/-- Environment of one `QuantumAIInjector.inject_lead` call.  The popup
helpers (`_check_popup_visibility`, `_trigger_popup`, `_close_popup`) and the
fill/submit helpers (`_fill_quantumai_form`, `_submit_quantumai_form`) each
wrap their bodies in `try/except` and return a boolean, so they are total
oracles here. -/
structure QuantumEnv where
  /-- The `with sync_playwright() as p` (line 496). -/
  startPlaywright : Except String Unit
  /-- The `p.chromium.launch(...)` (line 498). -/
  launch : Except String Unit
  /-- The `browser.new_context(...)` (line 501). -/
  new_context : Except String Unit
  /-- The `context.new_page()` (line 506). -/
  new_page : Except String Unit
  /-- The `page.goto(target_url, wait_until="domcontentloaded", timeout=30000)`
  (line 510), a single unretried navigation. -/
  gotoStep : Except String Unit
  /-- The popup visibility after the initial check / trigger attempt
  (lines 519-523). -/
  popupVisible : Bool
  /-- The `page.evaluate("document.getElementById('signin')...")` (line 535),
  not wrapped by an inner `try`. -/
  scrollToSignin : Except String Unit
  /-- The `_fill_quantumai_form(page, lead_data, "myform1")` (total boolean). -/
  fill1 : Bool
  /-- The `_submit_quantumai_form(page, "myform1")` (total boolean). -/
  submit1 : Bool
  /-- The `page.evaluate("document.getElementById('contacts')...")` (line 548). -/
  scrollToContacts : Except String Unit
  /-- The `_fill_quantumai_form(page, lead_data, "myform2")`. -/
  fill2 : Bool
  /-- The `_submit_quantumai_form(page, "myform2")`. -/
  submit2 : Bool
  /-- The `_fill_quantumai_form(page, lead_data, "myform3")`. -/
  fill3 : Bool
  /-- The `_submit_quantumai_form(page, "myform3")`. -/
  submit3 : Bool
  /-- The post-success redirect wait and `page.url` read (lines 572-576). -/
  urlRead : Except String Unit
  /-- The `browser.close()` in `finally` (line 597), inside a bare
  `except: pass`. -/
  closeResult : Except String Unit

/-- The `try` body of `QuantumAIInjector.inject_lead` after the browser is
launched (lines 500-581). -/
def quantumai_afterLaunch (env : QuantumEnv) : Except String Bool :=
  match env.new_context with
  | Except.error e => Except.error e
  | Except.ok _ =>
  match env.new_page with
  | Except.error e => Except.error e
  | Except.ok _ =>
  match env.gotoStep with
  | Except.error e => Except.error e
  | Except.ok _ =>
  match env.scrollToSignin with
  | Except.error e => Except.error e
  | Except.ok _ =>
  if env.fill1 && env.submit1 then
    match env.urlRead with
    | Except.error e => Except.error e
    | Except.ok _ => Except.ok true
  else
  match env.scrollToContacts with
  | Except.error e => Except.error e
  | Except.ok _ =>
  if env.fill2 && env.submit2 then
    match env.urlRead with
    | Except.error e => Except.error e
    | Except.ok _ => Except.ok true
  else
  if env.popupVisible && (env.fill3 && env.submit3) then
    match env.urlRead with
    | Except.error e => Except.error e
    | Except.ok _ => Except.ok true
  else Except.ok false

/-- The whole `try` body of `QuantumAIInjector.inject_lead` plus whether the
browser was launched. -/
def quantumai_inject_body (env : QuantumEnv) : Except String Bool × Bool :=
  match env.startPlaywright with
  | Except.error e => (Except.error e, false)
  | Except.ok _ =>
  match env.launch with
  | Except.error e => (Except.error e, false)
  | Except.ok _ => (quantumai_afterLaunch env, true)

/-- One complete `QuantumAIInjector.inject_lead` call: the `except Exception`
handler (lines 583-593) turns any escaping exception into `return False`
(attempting an error screenshot inside its own `try`), and the `finally`
block (lines 594-599) attempts `browser.close()` exactly when the browser was
launched, inside a bare `except: pass`. -/
def quantumai_inject_lead_run (env : QuantumEnv) : InjectRun :=
  let body := quantumai_inject_body env
  { result :=
      match body.1 with
      | Except.error _ => Except.ok false
      | Except.ok b => Except.ok b
    launched := body.2
    closeAttempted := body.2 }

/-! ## Exception flow of `ManualLeadInjector.open_manual_injection_browser`
(`manual_injector_playwright.py` lines 190-380). -/

/-- How the `try` body of `open_manual_injection_browser` ends: a plain
`return`, an exception of class `Exception` escaping to the handler at line
371, or the `sys.exit(1)` at line 201 (a `SystemExit`, which `except
Exception` does not catch). -/
inductive ManualBodyOutcome where
  | ret (b : Bool)
  | exc (msg : String)
  | sysExit (code : Nat)
  deriving Repr

/-- Environment of one `open_manual_injection_browser` call.
`_auto_fill_form` and `_capture_and_store_session` wrap their bodies in
`try/except` and return booleans, so they are total and do not appear. -/
structure ManualEnv where
  /-- Truthiness of `self.proxy_config` (line 198). -/
  proxyConfigured : Bool
  /-- The `with sync_playwright() as p` (line 203). -/
  startPlaywright : Except String Unit
  /-- The `p.chromium.launch(...)` (line 206). -/
  launch : Except String Unit
  /-- Context/page creation, fingerprint application and the viewport
  `page.evaluate` (lines 232-250). -/
  setupSteps : Except String Unit
  /-- The `page.goto` result on navigation attempt `i` (`none` = success); the
  loop at lines 255-264 makes up to `MAX_RETRIES` attempts with
  `RETRY_DELAY`-second sleeps. -/
  gotoRes : Nat → Option Str
  /-- The `page.evaluate("window.localStorage.setItem(...)")` (line 274). -/
  postNavSteps : Except String Unit
  /-- The monitor block (lines 305-369): its `try` returns `True` both
  normally and in the `except KeyboardInterrupt` arm, but an exception from
  `_capture_and_store_session`'s caller lines escapes it. -/
  monitorSteps : Except String Unit
  /-- The `browser.close()` in `finally` (line 378), inside a bare
  `except: pass`. -/
  closeResult : Except String Unit

/-- The navigation retry loop of `open_manual_injection_browser`
(lines 254-268): like `inject_lead`'s loop but with no proxy health check and
no proxy-expiration branch; `success` stays `False` when every attempt
raises, and then the function returns `False`. -/
def manualNavLoopAux (gotoRes : Nat → Option Str) : Nat → Nat → Bool
  | _, 0 => false
  | attempt, remaining + 1 =>
    match gotoRes attempt with
    | none => true
    | some _ => manualNavLoopAux gotoRes (attempt + 1) remaining

/-- The whole `try` body of `open_manual_injection_browser` plus whether the
browser was launched. -/
def manual_open_body (env : ManualEnv) : ManualBodyOutcome × Bool :=
  if env.proxyConfigured = false then
    (ManualBodyOutcome.sysExit 1, false)
  else
  match env.startPlaywright with
  | Except.error e => (ManualBodyOutcome.exc e, false)
  | Except.ok _ =>
  match env.launch with
  | Except.error e => (ManualBodyOutcome.exc e, false)
  | Except.ok _ =>
    ( match env.setupSteps with
      | Except.error e => ManualBodyOutcome.exc e
      | Except.ok _ =>
        if manualNavLoopAux env.gotoRes 0 MAX_RETRIES = false then
          ManualBodyOutcome.ret false
        else
          match env.postNavSteps with
          | Except.error e => ManualBodyOutcome.exc e
          | Except.ok _ =>
            match env.monitorSteps with
            | Except.error e => ManualBodyOutcome.exc e
            | Except.ok _ => ManualBodyOutcome.ret true
    , true )

/-- Outcome of one complete `open_manual_injection_browser` call:
`result = .ok b` is a plain return, `.error k` is a `sys.exit(k)` propagating
through the cleanup. -/
structure ManualRun where
  result : Except Nat Bool
  launched : Bool
  closeAttempted : Bool

/-- The `ManualLeadInjector.open_manual_injection_browser`: the
`except Exception` handler (lines 371-374) turns escaping exceptions into
`return False`; `SystemExit` from `sys.exit(1)` propagates; the `finally`
block (lines 375-380) attempts `browser.close()` exactly when the browser was
launched (also on the `SystemExit` path), inside a bare `except: pass`. -/
def manual_open_run (env : ManualEnv) : ManualRun :=
  let body := manual_open_body env
  { result :=
      match body.1 with
      | ManualBodyOutcome.ret b => Except.ok b
      | ManualBodyOutcome.exc _ => Except.ok false
      | ManualBodyOutcome.sysExit k => Except.error k
    launched := body.2
    closeAttempted := body.2 }

/-- Claim C9:  For every input dictionary (including ones missing required keys
such as `"firstName"` or `"phone"`, whose access raises `KeyError` inside the
form-interaction `try`) and every environment the browser can present,
`LeadInjector.inject_lead` never propagates an exception to its caller: every
exception raised inside it is caught by one of its `except` blocks and
converted into a boolean, so the call always returns `True` or `False`. -/
theorem claim_C9_inject_lead_total (env : InjectEnv)
    (lead_data : List (String × Str)) :
    (inject_lead_run env lead_data).result = Except.ok true ∨
    (inject_lead_run env lead_data).result = Except.ok false := by
  rcases h : (inject_lead_body env lead_data).1 with e | b
  · right; simp [inject_lead_run, h]
  · cases b
    · right; simp [inject_lead_run, h]
    · left; simp [inject_lead_run, h]

/-- Claim C8:  In each of the three injection routines, whenever a browser
instance was launched, closing it is attempted on every exit path — normal
return, early `return False`, escaping exception, and (for the manual
injector) `SystemExit` — via the `finally` cleanup block. -/
theorem claim_C8_browser_close_on_all_paths (envL : InjectEnv)
    (lead_data : List (String × Str)) (envQ : QuantumEnv) (envM : ManualEnv) :
    ((inject_lead_run envL lead_data).launched = true →
      (inject_lead_run envL lead_data).closeAttempted = true) ∧
    ((quantumai_inject_lead_run envQ).launched = true →
      (quantumai_inject_lead_run envQ).closeAttempted = true) ∧
    ((manual_open_run envM).launched = true →
      (manual_open_run envM).closeAttempted = true) :=
  ⟨fun h => h, fun h => h, fun h => h⟩

/-- Witness for C8 at concrete environments in which every step succeeds, so
the browser is launched in all three routines and the cleanup close is
attempted. -/
theorem claim_C8_browser_close_on_all_paths_witness :
    (inject_lead_run
      ⟨Except.ok (), Except.ok (), Except.ok (), Except.ok (), Except.ok (),
        false, (fun _ => true), (fun _ => none), Except.ok (), Except.ok (),
        (fun _ => none), (fun _ => none), (fun _ => none), (fun _ => none),
        [], Except.ok (), Except.ok (), Except.ok (), Except.ok (),
        Except.ok (), Except.ok (), none, Except.ok (), Except.ok true,
        Except.ok (), Except.ok ()⟩ []).closeAttempted = true ∧
    (quantumai_inject_lead_run
      ⟨Except.ok (), Except.ok (), Except.ok (), Except.ok (), Except.ok (),
        false, Except.ok (), true, true, Except.ok (), true, true, true, true,
        Except.ok (), Except.ok ()⟩).closeAttempted = true ∧
    (manual_open_run
      ⟨true, Except.ok (), Except.ok (), Except.ok (), (fun _ => none),
        Except.ok (), Except.ok (), Except.ok ()⟩).closeAttempted = true := by
  have h := claim_C8_browser_close_on_all_paths
    ⟨Except.ok (), Except.ok (), Except.ok (), Except.ok (), Except.ok (),
      false, (fun _ => true), (fun _ => none), Except.ok (), Except.ok (),
      (fun _ => none), (fun _ => none), (fun _ => none), (fun _ => none),
      [], Except.ok (), Except.ok (), Except.ok (), Except.ok (),
      Except.ok (), Except.ok (), none, Except.ok (), Except.ok true,
      Except.ok (), Except.ok ()⟩ []
    ⟨Except.ok (), Except.ok (), Except.ok (), Except.ok (), Except.ok (),
      false, Except.ok (), true, true, Except.ok (), true, true, true, true,
      Except.ok (), Except.ok ()⟩
    ⟨true, Except.ok (), Except.ok (), Except.ok (), (fun _ => none),
      Except.ok (), Except.ok (), Except.ok ()⟩
  exact ⟨h.1 rfl, h.2.1 rfl, h.2.2 rfl⟩

/-! ## `generate_leads.py` — `generate_lead`, `generate_phone`,
`generate_documents` (lines 56-97 and 158-211). -/

/-- The `COUNTRY_CODES` dictionary of `generate_leads.py` (lines 13-54), as an
association list in source order (no duplicate keys). -/
def COUNTRY_CODES : List (String × String) := [
  ("United States", "1"),
  ("United Kingdom", "44"),
  ("Australia", "61"),
  ("Germany", "49"),
  ("France", "33"),
  ("Italy", "39"),
  ("Spain", "34"),
  ("Canada", "1"),
  ("China", "86"),
  ("Japan", "81"),
  ("South Korea", "82"),
  ("India", "91"),
  ("Brazil", "55"),
  ("Mexico", "52"),
  ("Russia", "7"),
  ("South Africa", "27"),
  ("Nigeria", "234"),
  ("Egypt", "20"),
  ("Saudi Arabia", "966"),
  ("UAE", "971"),
  ("Singapore", "65"),
  ("Malaysia", "60"),
  ("Indonesia", "62"),
  ("Thailand", "66"),
  ("Vietnam", "84"),
  ("Philippines", "63"),
  ("Turkey", "90"),
  ("Poland", "48"),
  ("Netherlands", "31"),
  ("Belgium", "32"),
  ("Sweden", "46"),
  ("Norway", "47"),
  ("Denmark", "45"),
  ("Finland", "358"),
  ("Switzerland", "41"),
  ("Austria", "43"),
  ("Greece", "30"),
  ("Portugal", "351"),
  ("Ireland", "353"),
  ("New Zealand", "64")]

/-- Python's `str(n)` for a natural number, on the `List Char` model:
`pyNatStrAux` peels decimal digits with explicit fuel (`n` itself suffices). -/
def pyNatStrAux : Nat → Nat → Str
  | 0, _ => []
  | fuel + 1, n =>
    if n = 0 then []
    else pyNatStrAux fuel (n / 10) ++ [Char.ofNat (48 + n % 10)]

/-- Python's `str(n)` for a natural number. -/
def pyNatStr (n : Nat) : Str :=
  if n = 0 then [Char.ofNat 48] else pyNatStrAux n n

/-- The `get_country_code(country)` (`generate_leads.py` lines 56-58):
`COUNTRY_CODES.get(country, random.choice(list(COUNTRY_CODES.values())))`;
`fallbackPick` is the index `random.choice` draws from the values list. -/
def get_country_code (country : String)
    (fallbackPick : Fin COUNTRY_CODES.length) : Str :=
  match COUNTRY_CODES.lookup country with
  | some code => str code
  | none => str (COUNTRY_CODES.get fallbackPick).2

/-- The `generate_phone()` (`generate_leads.py` lines 60-64):
`''.join([str(random.randint(0, 9)) for _ in range(8)])`; `digit i` is the
`i`-th `random.randint(0, 9)` draw. -/
def generate_phone (digit : Nat → Fin 10) : Str :=
  ((List.range 8).map fun i => pyNatStr (digit i).val).flatten

/-- The documents record built by `generate_documents("ftd")`
(`generate_leads.py` lines 84-97). -/
structure Documents where
  idFrontUrl : Str
  idBackUrl : Str
  selfieUrl : Str
  residenceProofUrl : Str
  status : Str
  deriving DecidableEq, Repr

/-- The `status_choices = ["good", "ok", "pending"]` (line 87). -/
def document_status_choices : List Str := [str "good", str "ok", str "pending"]

/-- The `generate_documents("ftd")` (lines 84-96); `statusPick` is the index
`random.choice(status_choices)` draws.  (`generate_lead` only ever calls it
with `"ftd"`; for other lead types it would return an empty list and is not
called.) -/
def generate_documents (statusPick : Fin document_status_choices.length) :
    Documents :=
  let image_url :=
    str "https://d.newsweek.com/en/full/1888025/gary-lee-holding-id-face.jpg"
  { idFrontUrl := image_url
    idBackUrl := image_url
    selfieUrl := image_url
    residenceProofUrl := image_url
    status := document_status_choices.get statusPick }

/-- The `lead_types = ["ftd", "filler", "cold", "live"]` (line 160). -/
def lead_types : List Str := [str "ftd", str "filler", str "cold", str "live"]

/-- The `genders = ["male", "female", "not_defined"]` (line 161). -/
def lead_genders : List Str := [str "male", str "female", str "not_defined"]

/-- The `priorities = ["low", "medium", "high"]` (line 162). -/
def lead_priorities : List Str := [str "low", str "medium", str "high"]

/-- The `statuses = ["active", "contacted", "converted", "inactive"]` (line 163). -/
def lead_statuses : List Str :=
  [str "active", str "contacted", str "converted", str "inactive"]

/-- The `["website", "referral", "social_media", "direct"]` (line 190). -/
def lead_sources : List Str :=
  [str "website", str "referral", str "social_media", str "direct"]

/-- The randomness and Faker environment of one `generate_lead()` call.
The `random.choice` calls are modelled as indices into the lists they draw
from; the Faker- and datetime-derived strings (names, emails, company names,
the formatted `dob` date, the address, the ISO timestamps) are opaque string
oracles, since the claims only concern their presence; the `socialMedia` and
`comments` values are likewise passed through opaquely from their (total)
generators `generate_social_media` / `generate_comments`. -/
structure LeadEnv where
  leadTypePick : Fin lead_types.length
  genderPick : Fin lead_genders.length
  prioPick : Fin lead_priorities.length
  statusChoice : Fin lead_statuses.length
  sourcePick : Fin lead_sources.length
  country : String
  codeFallbackPick : Fin COUNTRY_CODES.length
  phoneDigit : Nat → Fin 10
  oldPhoneDigit : Nat → Fin 10
  oldPhoneShown : Bool
  oldEmailShown : Bool
  clientShown : Bool
  clientBrokerShown : Bool
  clientNetworkShown : Bool
  firstName : Str
  lastName : Str
  newEmail : Str
  oldEmail : Str
  clientName : Str
  clientBrokerName : Str
  clientNetworkName : Str
  socialMedia : List (String × Str)
  comments : List Str
  createdAt : Str
  updatedAt : Str
  dobStr : Str
  addressStr : Str
  docStatusPick : Fin document_status_choices.length
  sinVal : Nat

/-- The lead record returned by `generate_lead()`
(`generate_leads.py` lines 158-211): `Option` fields model keys added only by
the conditional `lead.update(...)` blocks. -/
structure Lead where
  leadType : Str
  prefixCode : Str
  firstName : Str
  lastName : Str
  newEmail : Str
  oldEmail : Str
  newPhone : Str
  oldPhone : Str
  country : Str
  isAssigned : Bool
  client : Str
  clientBroker : Str
  clientNetwork : Str
  gender : Str
  socialMedia : List (String × Str)
  comments : List Str
  source : Str
  priority : Str
  status : Str
  createdAt : Str
  updatedAt : Str
  dob : Option Str
  address : Option Str
  documents : Option Documents
  sin : Option Str

/-- The `generate_lead()` (`generate_leads.py` lines 158-211). -/
def generate_lead (env : LeadEnv) : Lead :=
  let lead_type := lead_types.get env.leadTypePick
  let prefixCode := get_country_code env.country env.codeFallbackPick
  let phone_number := generate_phone env.phoneDigit
  { leadType := lead_type
    prefixCode := prefixCode
    firstName := env.firstName
    lastName := env.lastName
    newEmail := env.newEmail
    oldEmail := if env.oldEmailShown then env.oldEmail else str ""
    newPhone := str "+" ++ prefixCode ++ phone_number
    oldPhone :=
      if env.oldPhoneShown then
        str "+" ++ prefixCode ++ generate_phone env.oldPhoneDigit
      else str ""
    country := str env.country
    isAssigned := false
    client := if env.clientShown then env.clientName else str ""
    clientBroker := if env.clientBrokerShown then env.clientBrokerName else str ""
    clientNetwork :=
      if env.clientNetworkShown then env.clientNetworkName else str ""
    gender := lead_genders.get env.genderPick
    socialMedia := env.socialMedia
    comments := env.comments
    source := lead_sources.get env.sourcePick
    priority := lead_priorities.get env.prioPick
    status := lead_statuses.get env.statusChoice
    createdAt := env.createdAt
    updatedAt := env.updatedAt
    dob :=
      if lead_type == str "ftd" || lead_type == str "filler" then
        some env.dobStr
      else none
    address :=
      if lead_type == str "ftd" || lead_type == str "filler" then
        some env.addressStr
      else none
    documents :=
      if lead_type == str "ftd" then
        some (generate_documents env.docStatusPick)
      else none
    sin := if lead_type == str "ftd" then some (pyNatStr env.sinVal) else none }

theorem isDigit_ofNat_48_add (m : Nat) (h : m < 10) :
    (Char.ofNat (48 + m)).isDigit = true := by
  interval_cases m <;> decide

theorem pyNatStrAux_zero (fuel : Nat) : pyNatStrAux fuel 0 = [] := by
  cases fuel <;> rfl

theorem pyNatStrAux_digits :
    ∀ fuel n, ∀ c ∈ pyNatStrAux fuel n, c.isDigit = true := by
  intro fuel
  induction fuel with
  | zero => intro n c hc; simp [pyNatStrAux] at hc
  | succ fuel ih =>
    intro n c hc
    simp only [pyNatStrAux] at hc
    split at hc
    · simp at hc
    · simp only [List.mem_append, List.mem_singleton] at hc
      rcases hc with hc | hc
      · exact ih (n / 10) c hc
      · subst hc
        exact isDigit_ofNat_48_add (n % 10) (Nat.mod_lt n (by norm_num))

theorem pyNatStrAux_length :
    ∀ fuel k n, 10 ^ k ≤ n → n < 10 ^ (k + 1) → n ≤ fuel →
      (pyNatStrAux fuel n).length = k + 1 := by
  intro fuel
  induction fuel with
  | zero =>
    intro k n h1 h2 h3
    have : 0 < 10 ^ k := Nat.pos_pow_of_pos k (by norm_num)
    omega
  | succ fuel ih =>
    intro k n h1 h2 h3
    have hn : n ≠ 0 := by
      have : 0 < 10 ^ k := Nat.pos_pow_of_pos k (by norm_num)
      omega
    simp only [pyNatStrAux, hn, if_false, List.length_append, List.length_singleton]
    cases k with
    | zero =>
      have hlt : n < 10 := by simpa using h2
      have : n / 10 = 0 := Nat.div_eq_of_lt hlt
      rw [this, pyNatStrAux_zero]
      rfl
    | succ k =>
      have hge : 10 ^ (k + 1) ≤ n := h1
      have hdiv1 : 10 ^ k ≤ n / 10 := by
        rw [Nat.le_div_iff_mul_le (by norm_num)]
        calc 10 ^ k * 10 = 10 ^ (k + 1) := by ring
        _ ≤ n := hge
      have hdiv2 : n / 10 < 10 ^ (k + 1) := by
        rw [Nat.div_lt_iff_lt_mul (by norm_num)]
        calc n < 10 ^ (k + 1 + 1) := h2
        _ = 10 ^ (k + 1) * 10 := by ring
      have hfuel : n / 10 ≤ fuel := by
        have hlt : n / 10 < n := Nat.div_lt_self (by omega) (by norm_num)
        omega
      rw [ih k (n / 10) hdiv1 hdiv2 hfuel]

theorem pyNatStr_nine_digits (n : Nat) (h1 : 100000000 ≤ n)
    (h2 : n ≤ 999999999) :
    (pyNatStr n).length = 9 ∧ ∀ c ∈ pyNatStr n, c.isDigit = true := by
  have hn : n ≠ 0 := by omega
  unfold pyNatStr
  rw [if_neg hn]
  constructor
  · have := pyNatStrAux_length n 8 n (by norm_num; omega) (by norm_num; omega)
      (Nat.le_refl n)
    simpa using this
  · exact pyNatStrAux_digits n n

theorem pyNatStr_single_digit (v : Fin 10) :
    pyNatStr v.val = [Char.ofNat (48 + v.val)] := by
  fin_cases v <;> rfl

theorem flatten_map_singleton {α β : Type} (l : List α) (f : α → β) :
    (l.map fun x => [f x]).flatten = l.map f := by
  induction l with
  | nil => rfl
  | cons x xs ih => simp [ih]

theorem generate_phone_spec (digit : Nat → Fin 10) :
    (generate_phone digit).length = 8 ∧
    ∀ c ∈ generate_phone digit, c.isDigit = true := by
  have hmap : (List.range 8).map (fun i => pyNatStr (digit i).val) =
      (List.range 8).map fun i => [Char.ofNat (48 + (digit i).val)] :=
    List.map_congr_left fun i _ => pyNatStr_single_digit (digit i)
  unfold generate_phone
  rw [hmap, flatten_map_singleton]
  constructor
  · simp
  · intro c hc
    simp only [List.mem_map] at hc
    obtain ⟨i, _, rfl⟩ := hc
    exact isDigit_ofNat_48_add (digit i).val (digit i).isLt

theorem generate_documents_status (p : Fin document_status_choices.length) :
    (generate_documents p).status = str "good" ∨
    (generate_documents p).status = str "ok" ∨
    (generate_documents p).status = str "pending" := by
  fin_cases p
  · exact Or.inl rfl
  · exact Or.inr (Or.inl rfl)
  · exact Or.inr (Or.inr rfl)

/-- Claim C10:  Every record returned by `generate_lead` satisfies the shape
invariant: `leadType` is one of `"ftd"`, `"filler"`, `"cold"`, `"live"`;
`newPhone` is `"+"` followed by the record's prefix followed by exactly 8
decimal digits; `dob` and `address` are present iff `leadType` is `"ftd"` or
`"filler"`; `documents` and `sin` are present iff `leadType` is `"ftd"`, in
which case `documents.status` is one of `"good"`, `"ok"`, `"pending"` and
`sin` is a 9-digit number string.  (The hypothesis on `sinVal` is the
contract of `random.randint(100000000, 999999999)`.) -/
theorem claim_C10_generate_lead_shape (env : LeadEnv)
    (hsin : 100000000 ≤ env.sinVal ∧ env.sinVal ≤ 999999999) :
    ((generate_lead env).leadType = str "ftd" ∨
     (generate_lead env).leadType = str "filler" ∨
     (generate_lead env).leadType = str "cold" ∨
     (generate_lead env).leadType = str "live") ∧
    (∃ ds : Str, (generate_lead env).newPhone =
        str "+" ++ (generate_lead env).prefixCode ++ ds ∧
      ds.length = 8 ∧ ∀ c ∈ ds, c.isDigit = true) ∧
    (((generate_lead env).dob.isSome = true ∧
      (generate_lead env).address.isSome = true) ↔
      ((generate_lead env).leadType = str "ftd" ∨
       (generate_lead env).leadType = str "filler")) ∧
    (((generate_lead env).documents.isSome = true ∧
      (generate_lead env).sin.isSome = true) ↔
      (generate_lead env).leadType = str "ftd") ∧
    (∀ d, (generate_lead env).documents = some d →
      (d.status = str "good" ∨ d.status = str "ok" ∨
       d.status = str "pending")) ∧
    (∀ s, (generate_lead env).sin = some s →
      s.length = 9 ∧ ∀ c ∈ s, c.isDigit = true) := by
  rcases env with ⟨ltp, gp, pp, sc, sp, country, cfp, pd, opd, ops, oes, cs,
    cbs, cns, fn, ln, ne, oe, cn, cbn, cnn, sm, cm, ca, ua, dob, addr, dsp, sv⟩
  simp only at hsin
  fin_cases ltp
  · refine ⟨Or.inl rfl,
      ⟨generate_phone pd, rfl, (generate_phone_spec pd).1,
        (generate_phone_spec pd).2⟩,
      ⟨fun _ => Or.inl rfl, fun _ => ⟨rfl, rfl⟩⟩,
      ⟨fun _ => rfl, fun _ => ⟨rfl, rfl⟩⟩, ?_, ?_⟩
    · intro d hd
      have hd2 : some (generate_documents dsp) = some d := hd
      cases hd2
      exact generate_documents_status dsp
    · intro s hs
      have hs2 : some (pyNatStr sv) = some s := hs
      cases hs2
      exact pyNatStr_nine_digits sv hsin.1 hsin.2
  · refine ⟨Or.inr (Or.inl rfl),
      ⟨generate_phone pd, rfl, (generate_phone_spec pd).1,
        (generate_phone_spec pd).2⟩,
      ⟨fun _ => Or.inr rfl, fun _ => ⟨rfl, rfl⟩⟩,
      ⟨fun h => Bool.noConfusion (h.1 : false = true),
       fun h => absurd h (show ¬(str "filler" = str "ftd") by decide)⟩, ?_, ?_⟩
    · intro d hd
      exact Option.noConfusion (hd : (none : Option Documents) = some d)
    · intro s hs
      exact Option.noConfusion (hs : (none : Option Str) = some s)
  · refine ⟨Or.inr (Or.inr (Or.inl rfl)),
      ⟨generate_phone pd, rfl, (generate_phone_spec pd).1,
        (generate_phone_spec pd).2⟩,
      ⟨fun h => Bool.noConfusion (h.1 : false = true),
       fun h => by
         rcases h with h | h
         · exact absurd h (show ¬(str "cold" = str "ftd") by decide)
         · exact absurd h (show ¬(str "cold" = str "filler") by decide)⟩,
      ⟨fun h => Bool.noConfusion (h.1 : false = true),
       fun h => absurd h (show ¬(str "cold" = str "ftd") by decide)⟩, ?_, ?_⟩
    · intro d hd
      exact Option.noConfusion (hd : (none : Option Documents) = some d)
    · intro s hs
      exact Option.noConfusion (hs : (none : Option Str) = some s)
  · refine ⟨Or.inr (Or.inr (Or.inr rfl)),
      ⟨generate_phone pd, rfl, (generate_phone_spec pd).1,
        (generate_phone_spec pd).2⟩,
      ⟨fun h => Bool.noConfusion (h.1 : false = true),
       fun h => by
         rcases h with h | h
         · exact absurd h (show ¬(str "live" = str "ftd") by decide)
         · exact absurd h (show ¬(str "live" = str "filler") by decide)⟩,
      ⟨fun h => Bool.noConfusion (h.1 : false = true),
       fun h => absurd h (show ¬(str "live" = str "ftd") by decide)⟩, ?_, ?_⟩
    · intro d hd
      exact Option.noConfusion (hd : (none : Option Documents) = some d)
    · intro s hs
      exact Option.noConfusion (hs : (none : Option Str) = some s)

/-- Witness for C10 at a concrete randomness environment (lead type pick 0,
i.e. an FTD lead, `sin` draw 123456789): the bound hypothesis holds and the
generated record's `leadType` is among the four allowed values. -/
theorem claim_C10_generate_lead_shape_witness :
    (100000000 ≤ 123456789 ∧ 123456789 ≤ 999999999) ∧
    ((generate_lead ⟨⟨0, by decide⟩, ⟨0, by decide⟩, ⟨0, by decide⟩,
        ⟨0, by decide⟩, ⟨0, by decide⟩, "Germany", ⟨0, by decide⟩,
        (fun _ => 0), (fun _ => 0), false, false, false, false, false,
        [], [], [], [], [], [], [], [], [], [], [], [], [],
        ⟨0, by decide⟩, 123456789⟩).leadType = str "ftd" ∨
     (generate_lead ⟨⟨0, by decide⟩, ⟨0, by decide⟩, ⟨0, by decide⟩,
        ⟨0, by decide⟩, ⟨0, by decide⟩, "Germany", ⟨0, by decide⟩,
        (fun _ => 0), (fun _ => 0), false, false, false, false, false,
        [], [], [], [], [], [], [], [], [], [], [], [], [],
        ⟨0, by decide⟩, 123456789⟩).leadType = str "filler" ∨
     (generate_lead ⟨⟨0, by decide⟩, ⟨0, by decide⟩, ⟨0, by decide⟩,
        ⟨0, by decide⟩, ⟨0, by decide⟩, "Germany", ⟨0, by decide⟩,
        (fun _ => 0), (fun _ => 0), false, false, false, false, false,
        [], [], [], [], [], [], [], [], [], [], [], [], [],
        ⟨0, by decide⟩, 123456789⟩).leadType = str "cold" ∨
     (generate_lead ⟨⟨0, by decide⟩, ⟨0, by decide⟩, ⟨0, by decide⟩,
        ⟨0, by decide⟩, ⟨0, by decide⟩, "Germany", ⟨0, by decide⟩,
        (fun _ => 0), (fun _ => 0), false, false, false, false, false,
        [], [], [], [], [], [], [], [], [], [], [], [], [],
        ⟨0, by decide⟩, 123456789⟩).leadType = str "live") := by
  refine ⟨by norm_num, ?_⟩
  exact (claim_C10_generate_lead_shape
    ⟨⟨0, by decide⟩, ⟨0, by decide⟩, ⟨0, by decide⟩,
      ⟨0, by decide⟩, ⟨0, by decide⟩, "Germany", ⟨0, by decide⟩,
      (fun _ => 0), (fun _ => 0), false, false, false, false, false,
      [], [], [], [], [], [], [], [], [], [], [], [], [],
      ⟨0, by decide⟩, 123456789⟩ (by norm_num)).1
